import Mathlib

set_option maxHeartbeats 1000000

/-!
Verification development for `app/utils/map_utils.py`.

The module renders vehicle routes on folium maps.  We give a shallow
embedding: Python/JSON values are modelled by the inductive `JsonV`
(numbers as rationals), Python exceptions by `Except Unit`, network
behaviour by an injected list of per-attempt `Outcome`s, and the UI
side effects (`st.warning`, added polylines, ...) as explicit fields of
result structures.  Arithmetic whose value only flows into display
strings (map centers, distance/duration tooltips) is modelled by the
corresponding "is a number" checks, which is all that is observable in
the embedding; a non-numeric operand raises exactly where Python would.
-/

/-- JSON-like Python values (`None`, `bool`, numbers, `str`, `list`, `dict`). -/
inductive JsonV where
  | null : JsonV
  | bool : Bool → JsonV
  | num : ℚ → JsonV
  | str : String → JsonV
  | arr : List JsonV → JsonV
  | obj : List (String × JsonV) → JsonV

mutual

/-- Structural (Python `==`) equality on `JsonV`. -/
def JsonV.beq : JsonV → JsonV → Bool
  | .null, .null => true
  | .bool a, .bool b => a == b
  | .num a, .num b => a == b
  | .str a, .str b => a == b
  | .arr a, .arr b => JsonV.beqL a b
  | .obj a, .obj b => JsonV.beqKV a b
  | _, _ => false

def JsonV.beqL : List JsonV → List JsonV → Bool
  | [], [] => true
  | a :: as, b :: bs => JsonV.beq a b && JsonV.beqL as bs
  | _, _ => false

def JsonV.beqKV : List (String × JsonV) → List (String × JsonV) → Bool
  | [], [] => true
  | (k1, v1) :: as, (k2, v2) :: bs => k1 == k2 && JsonV.beq v1 v2 && JsonV.beqKV as bs
  | _, _ => false

end

instance : BEq JsonV := ⟨JsonV.beq⟩

/-- Python truthiness. -/
def jTruthy : JsonV → Bool
  | .null => false
  | .bool b => b
  | .num q => decide (q ≠ 0)
  | .str s => s != ""
  | .arr l => !l.isEmpty
  | .obj l => !l.isEmpty

def JsonV.isObj : JsonV → Bool
  | .obj _ => true
  | _ => false

/-- First-match association lookup (Python `dict` keys are unique, so this
is ordinary dict lookup). -/
def lookupKV : List (String × JsonV) → String → Option JsonV
  | [], _ => none
  | (k, v) :: rest, key => if k = key then some v else lookupKV rest key

/-- `x.get(k)`-style lookup on a dict value; `none` for a missing key or a
non-dict. -/
def jGetKey (x : JsonV) (k : String) : Option JsonV :=
  match x with
  | .obj kvs => lookupKV kvs k
  | _ => none

/-- Does the character list `needle` occur at the head of `hay`? -/
def needleAt : List Char → List Char → Bool
  | [], _ => true
  | _ :: _, [] => false
  | a :: as, b :: bs => a == b && needleAt as bs

/-- Does `needle` occur anywhere in `hay`? -/
def hasNeedle (needle : List Char) : List Char → Bool
  | [] => needleAt needle []
  | hay@(_ :: t) => needleAt needle hay || hasNeedle needle t

/-- Python `sub in s` on strings. -/
def strContains (s sub : String) : Bool := hasNeedle sub.data s.data

/-- Python `k in x`: key test on dicts, membership on lists, substring test
on strings, `TypeError` otherwise. -/
def jContainsE (x : JsonV) (k : String) : Except Unit Bool :=
  match x with
  | .obj kvs => .ok (lookupKV kvs k).isSome
  | .arr l => .ok (l.any (fun e => JsonV.beq e (JsonV.str k)))
  | .str s => .ok (strContains s k)
  | _ => .error ()

/-- Python `x[k]` with a string key: dict lookup (`KeyError` when absent),
`TypeError` on anything else. -/
def jGetItemE : JsonV → String → Except Unit JsonV
  | .obj kvs, k =>
    match lookupKV kvs k with
    | some v => .ok v
    | none => .error ()
  | _, _ => .error ()

/-- Python `x.get(k)`: `AttributeError` when `x` is not a dict. -/
def jGetAttrE (x : JsonV) (k : String) : Except Unit (Option JsonV) :=
  match x with
  | .obj kvs => .ok (lookupKV kvs k)
  | _ => .error ()

/-- Python `x.get(k, d)`. -/
def jGetAttrDE (x : JsonV) (k : String) (d : JsonV) : Except Unit JsonV :=
  match jGetAttrE x k with
  | .ok (some v) => .ok v
  | .ok none => .ok d
  | .error _ => .error ()

/-- Python `len(x)`. -/
def jLenE : JsonV → Except Unit Nat
  | .arr l => .ok l.length
  | .str s => .ok s.length
  | .obj l => .ok l.length
  | _ => .error ()

/-- Python `x[i]` with a non-negative integer index. -/
def jIndexE : JsonV → Nat → Except Unit JsonV
  | .arr l, i =>
    match l.get? i with
    | some v => .ok v
    | none => .error ()
  | .str s, i =>
    match s.data.get? i with
    | some c => .ok (.str (String.mk [c]))
    | none => .error ()
  | _, _ => .error ()

/-- Python `x[-1]`. -/
def jIndexLastE : JsonV → Except Unit JsonV
  | .arr l =>
    match l.getLast? with
    | some v => .ok v
    | none => .error ()
  | .str s =>
    match s.data.getLast? with
    | some c => .ok (.str (String.mk [c]))
    | none => .error ()
  | _ => .error ()

/-- Python `for e in x`: elements of a list, characters of a string, keys
of a dict; `TypeError` otherwise. -/
def jIterateE : JsonV → Except Unit (List JsonV)
  | .arr l => .ok l
  | .str s => .ok (s.data.map (fun c => JsonV.str (String.mk [c])))
  | .obj kvs => .ok (kvs.map (fun kv => JsonV.str kv.1))
  | _ => .error ()

/-- Requires a numeric value, as arithmetic/format specifiers do; the value
itself only flows into display strings, so only numhood is observable. -/
def jAsNumE : JsonV → Except Unit ℚ
  | .num q => .ok q
  | _ => .error ()

/-! ## `get_vehicle_type` -/

/-- `str.lower()` for the alphabets the keyword sets use: ASCII plus the
Latin-1 uppercase letters (e.g. `Ô` → `ô`, `Ã` → `ã`). -/
def pyLowerChar (c : Char) : Char :=
  let n := c.toNat
  if 65 ≤ n ∧ n ≤ 90 then Char.ofNat (n + 32)
  else if 192 ≤ n ∧ n ≤ 222 ∧ n ≠ 215 then Char.ofNat (n + 32)
  else c

def pyLower (s : String) : String := String.mk (s.data.map pyLowerChar)

def busKeywords : List String := ["ônibus", "onibus", "bus"]
def vanKeywords : List String := ["van", "sprint", "ducato", "boxer", "kombi"]
def truckKeywords : List String := ["caminhão", "caminhao", "truck"]
def motoKeywords : List String := ["moto", "bike", "motorcycle"]

/-- `get_vehicle_type` (map_utils.py lines 16-38); `none` models a `None`
argument, and a falsy argument is replaced by `""` before lowering. -/
def get_vehicle_type (vehicle_model : Option String) : String :=
  let vm : String :=
    match vehicle_model with
    | some s => if s ≠ "" then pyLower s else ""
    | none => ""
  if busKeywords.any (fun k => strContains vm k) then "bus"
  else if vanKeywords.any (fun k => strContains vm k) then "van"
  else if truckKeywords.any (fun k => strContains vm k) then "truck"
  else if motoKeywords.any (fun k => strContains vm k) then "motorcycle"
  else "car"

/-! ## Color and line-style helpers -/

def DISTINCT_COLORS : List String :=
  ["#3366CC", "#DC3912", "#FF9900", "#109618", "#990099",
   "#0099C6", "#DD4477", "#66AA00", "#B82E2E", "#316395",
   "#994499", "#22AA99", "#AAAA11", "#6633CC", "#E67300",
   "#8B0707", "#329262", "#5574A6", "#FF6347", "#4B0082"]

structure LineStyle where
  weight : Nat
  dashArray : Option String
  deriving DecidableEq

def LINE_STYLES : List LineStyle :=
  [⟨4, none⟩, ⟨4, some "10, 10"⟩, ⟨4, some "1, 10"⟩, ⟨4, some "15, 10, 1, 10"⟩]

/-- `get_line_style` (lines 77-79). -/
def get_line_style (index : Nat) : LineStyle :=
  LINE_STYLES.getD (index % LINE_STYLES.length) ⟨4, none⟩

/-! ### MD5 (used by `get_color_for_route` through `hashlib.md5`) -/

def utf8EncodeChar (c : Char) : List Nat :=
  let n := c.toNat
  if n < 128 then [n]
  else if n < 2048 then [192 ||| (n >>> 6), 128 ||| (n &&& 63)]
  else if n < 65536 then
    [224 ||| (n >>> 12), 128 ||| ((n >>> 6) &&& 63), 128 ||| (n &&& 63)]
  else
    [240 ||| (n >>> 18), 128 ||| ((n >>> 12) &&& 63),
     128 ||| ((n >>> 6) &&& 63), 128 ||| (n &&& 63)]

def utf8Encode (s : String) : List Nat := (s.data.map utf8EncodeChar).flatten

def md5S : List Nat :=
  [7, 12, 17, 22, 7, 12, 17, 22, 7, 12, 17, 22, 7, 12, 17, 22,
   5, 9, 14, 20, 5, 9, 14, 20, 5, 9, 14, 20, 5, 9, 14, 20,
   4, 11, 16, 23, 4, 11, 16, 23, 4, 11, 16, 23, 4, 11, 16, 23,
   6, 10, 15, 21, 6, 10, 15, 21, 6, 10, 15, 21, 6, 10, 15, 21]

def md5K : List Nat :=
  [0xd76aa478, 0xe8c7b756, 0x242070db, 0xc1bdceee,
   0xf57c0faf, 0x4787c62a, 0xa8304613, 0xfd469501,
   0x698098d8, 0x8b44f7af, 0xffff5bb1, 0x895cd7be,
   0x6b901122, 0xfd987193, 0xa679438e, 0x49b40821,
   0xf61e2562, 0xc040b340, 0x265e5a51, 0xe9b6c7aa,
   0xd62f105d, 0x02441453, 0xd8a1e681, 0xe7d3fbc8,
   0x21e1cde6, 0xc33707d6, 0xf4d50d87, 0x455a14ed,
   0xa9e3e905, 0xfcefa3f8, 0x676f02d9, 0x8d2a4c8a,
   0xfffa3942, 0x8771f681, 0x6d9d6122, 0xfde5380c,
   0xa4beea44, 0x4bdecfa9, 0xf6bb4b60, 0xbebfbc70,
   0x289b7ec6, 0xeaa127fa, 0xd4ef3085, 0x04881d05,
   0xd9d4d039, 0xe6db99e5, 0x1fa27cf8, 0xc4ac5665,
   0xf4292244, 0x432aff97, 0xab9423a7, 0xfc93a039,
   0x655b59c3, 0x8f0ccc92, 0xffeff47d, 0x85845dd1,
   0x6fa87e4f, 0xfe2ce6e0, 0xa3014314, 0x4e0811a1,
   0xf7537e82, 0xbd3af235, 0x2ad7d2bb, 0xeb86d391]

def rotl32 (x n : Nat) : Nat := ((x <<< n) ||| (x >>> (32 - n))) % 4294967296

def md5Mix (i b c d : Nat) : Nat :=
  if i < 16 then (b &&& c) ||| ((4294967295 - b) &&& d)
  else if i < 32 then (d &&& b) ||| ((4294967295 - d) &&& c)
  else if i < 48 then b ^^^ c ^^^ d
  else c ^^^ (b ||| (4294967295 - d))

def md5MsgIdx (i : Nat) : Nat :=
  if i < 16 then i
  else if i < 32 then (5 * i + 1) % 16
  else if i < 48 then (3 * i + 5) % 16
  else (7 * i) % 16

def md5Round (M : List Nat) (st : Nat × Nat × Nat × Nat) (i : Nat) :
    Nat × Nat × Nat × Nat :=
  let (a, b, c, d) := st
  let f := (md5Mix i b c d + a + md5K.getD i 0 + M.getD (md5MsgIdx i) 0) % 4294967296
  (d, (b + rotl32 f (md5S.getD i 0)) % 4294967296, b, c)

def leBytes (count x : Nat) : List Nat :=
  (List.range count).map (fun i => (x >>> (8 * i)) % 256)

def toWordsLE (bytes : List Nat) : List Nat :=
  (List.range 16).map (fun j =>
    bytes.getD (4 * j) 0 + 256 * bytes.getD (4 * j + 1) 0 +
    65536 * bytes.getD (4 * j + 2) 0 + 16777216 * bytes.getD (4 * j + 3) 0)

def md5Chunk (st : Nat × Nat × Nat × Nat) (bytes : List Nat) :
    Nat × Nat × Nat × Nat :=
  let M := toWordsLE bytes
  let (a, b, c, d) := (List.range 64).foldl (md5Round M) st
  ((st.1 + a) % 4294967296, (st.2.1 + b) % 4294967296,
   (st.2.2.1 + c) % 4294967296, (st.2.2.2 + d) % 4294967296)

def md5Pad (msg : List Nat) : List Nat :=
  let afterOne := msg ++ [128]
  let zeros := (64 - (afterOne.length + 8) % 64) % 64
  afterOne ++ List.replicate zeros 0 ++ leBytes 8 ((msg.length * 8) % 18446744073709551616)

def splitChunks : List Nat → List (List Nat)
  | [] => []
  | x :: xs => ((x :: xs).take 64) :: splitChunks ((x :: xs).drop 64)
termination_by l => l.length
decreasing_by simp [List.drop]; omega

/-- MD5 digest bytes of a byte string. -/
def md5Digest (msg : List Nat) : List Nat :=
  let st := (splitChunks (md5Pad msg)).foldl md5Chunk
    (0x67452301, 0xefcdab89, 0x98badcfe, 0x10325476)
  leBytes 4 st.1 ++ leBytes 4 st.2.1 ++ leBytes 4 st.2.2.1 ++ leBytes 4 st.2.2.2

/-- `int(hashlib.md5(s.encode()).hexdigest(), 16)`: the digest bytes read as
a big-endian number (which is what reading the hex digest as an integer
does). -/
def md5HexInt (s : String) : Nat :=
  (md5Digest (utf8Encode s)).foldl (fun acc b => acc * 256 + b) 0

/-- `get_color_for_route` (lines 56-75).  `route_id` is modelled as an
optional string; Python tests its truthiness, so `""` behaves like `None`. -/
def get_color_for_route (index : Nat) (route_id : Option String) : String :=
  match route_id with
  | some rid =>
    if rid ≠ "" then
      let hash_val := md5HexInt rid
      DISTINCT_COLORS.getD (hash_val % DISTINCT_COLORS.length) ""
    else
      DISTINCT_COLORS.getD (index % DISTINCT_COLORS.length) ""
  | none => DISTINCT_COLORS.getD (index % DISTINCT_COLORS.length) ""

/-! ## `get_route_geometry` (lines 81-189)

The network is modelled by a list of `Outcome`s, one per attempt the code
makes: a request either times out, fails `raise_for_status`, raises some
other exception (connection error, JSON decode error, ...), or yields a
decoded JSON body. -/

inductive Outcome where
  | timeout : Outcome
  | httpErr : Outcome
  | exc : Outcome
  | ok : JsonV → Outcome

/-- The response-shape check of lines 154-166, with exceptions (e.g. a
features dict indexed by `[0]`) folded into the `break`-and-return-`None`
behaviour they produce there. -/
def checkDataE (data : JsonV) : Except Unit (Option JsonV) := do
  let b ← jContainsE data "features"
  if b then
    let fv ← jGetItemE data "features"
    let n ← jLenE fv
    if 0 < n then
      let feature ← jIndexE fv 0
      let g ← jContainsE feature "geometry"
      if g then pure (some data) else pure none
    else pure none
  else pure none

def checkData (data : JsonV) : Option JsonV :=
  match checkDataE data with
  | .ok r => r
  | .error _ => none

/-- The retry loop of lines 144-185.  `fuel` is the number of attempts still
allowed (`max_retries - attempt`); the result is
(returned data?, attempts actually made, sleep durations in order). -/
def routeLoop (outs : List Outcome) : Nat → Nat → Nat → Option JsonV × Nat × List Nat
  | 0, attempt, _ => (none, attempt, [])
  | fuel + 1, attempt, delay =>
    match outs.getD attempt Outcome.exc with
    | .timeout =>
      if fuel = 0 then (none, attempt + 1, [])
      else
        let r := routeLoop outs fuel (attempt + 1) (delay * 2)
        (r.1, r.2.1, delay :: r.2.2)
    | .httpErr => (none, attempt + 1, [])
    | .exc => (none, attempt + 1, [])
    | .ok data => (checkData data, attempt + 1, [])

/-- The waypoint filter of line 124: a dict with present and truthy
`lat` and `lon`. -/
def wpValid (wp : JsonV) : Bool :=
  wp.isObj && (jGetKey wp "lat").isSome && (jGetKey wp "lon").isSome &&
    (match jGetKey wp "lat" with | some v => jTruthy v | none => false) &&
    (match jGetKey wp "lon" with | some v => jTruthy v | none => false)

/-- The start/end validation of lines 112-118. -/
def validPoints (sp ep : JsonV) : Bool :=
  sp.isObj && ep.isObj && (jGetKey sp "lat").isSome && (jGetKey sp "lon").isSome &&
    (jGetKey ep "lat").isSome && (jGetKey ep "lon").isSome

def vehicleToMode (vt : String) : String :=
  if vt = "car" then "drive"
  else if vt = "bus" then "drive"
  else if vt = "van" then "drive"
  else if vt = "truck" then "truck"
  else if vt = "motorcycle" then "motorcycle"
  else "drive"

/-- Observable behaviour of one `get_route_geometry` call. -/
structure FetchResult where
  result : Option JsonV
  attempts : Nat
  sleeps : List Nat
  warnedNoKey : Bool
  requestPath : Option (List JsonV)

/-- `get_route_geometry` (lines 81-189).  `apiKey` is the value of
`GEOAPIFY_API_KEY` (`""` when unset); `vehicle_type` is a `JsonV` because a
non-string argument makes `.lower()` on line 109 raise, which propagates to
the caller (`.error`).  `requestPath` records the ordered point list the
`waypoints` request parameter is built from (line 128-129). -/
def get_route_geometry (apiKey : String) (start_point end_point : JsonV)
    (waypoints : List JsonV) (vehicle_type : JsonV) (outs : List Outcome) :
    Except Unit FetchResult :=
  if apiKey = "" then
    .ok ⟨none, 0, [], true, none⟩
  else
    match vehicle_type with
    | .str vt =>
      let _travel_mode := vehicleToMode (pyLower vt)
      if !validPoints start_point end_point then
        .ok ⟨none, 0, [], false, none⟩
      else
        let valid_waypoints := waypoints.filter wpValid
        let all_points := start_point :: (valid_waypoints ++ [end_point])
        let (r, n, ss) := routeLoop outs 3 0 2
        .ok ⟨r, n, ss, false, some all_points⟩
    | _ => .error ()

/-- The response shape the spec describes as required for success: a
non-empty `features` list whose first feature has a `geometry` key
(`'geometry' in feature` in the Python sense). -/
def featuresShapeSpec (data : JsonV) : Bool :=
  match jGetKey data "features" with
  | some (JsonV.arr (f :: _)) =>
    match jContainsE f "geometry" with
    | .ok b => b
    | .error _ => false
  | _ => false

/-! ## `extract_route_coordinates` (lines 937-979) and polyline decoding -/

/-- One varint of the encoded-polyline format (`_trans` of the `polyline`
package): consumes 5-bit chunks until one lacks the continuation bit;
running off the end of the string is an `IndexError` (`none`). -/
def polyTrans : List Char → Nat → Nat → Option (Int × List Char)
  | [], _, _ => none
  | c :: rest, shift, result =>
    let byte : Int := (c.toNat : Int) - 63
    let m : Nat := (byte % 32).toNat
    let result := result ||| (m <<< shift)
    if 32 ≤ byte then polyTrans rest (shift + 5) result
    else
      let r : Int :=
        if result % 2 = 1 then -(((result / 2 : Nat) : Int)) - 1
        else ((result / 2 : Nat) : Int)
      some (r, rest)

/-- The decode loop of `polyline.decode`, fuelled by the string length:
each iteration consumes at least one character, so the fuel never runs out
before the characters do. -/
def polyDecodeLoop : Nat → List Char → Int → Int → List (ℚ × ℚ) → Option (List (ℚ × ℚ))
  | _, [], _, _, acc => some acc.reverse
  | 0, _ :: _, _, _, _ => none
  | fuel + 1, cs@(_ :: _), lat, lng, acc =>
    match polyTrans cs 0 0 with
    | none => none
    | some (dlat, cs1) =>
      match polyTrans cs1 0 0 with
      | none => none
      | some (dlng, cs2) =>
        let lat := lat + dlat
        let lng := lng + dlng
        polyDecodeLoop fuel cs2 lat lng (((lat : ℚ) / 100000, (lng : ℚ) / 100000) :: acc)

/-- `polyline.decode(s)` with the default precision 5; `none` models an
exception escaping the decoder. -/
def polylineDecode (s : String) : Option (List (ℚ × ℚ)) :=
  polyDecodeLoop s.data.length s.data 0 0 []

/-- `(coord[1], coord[0])` for each coordinate in order, stopping at the
first exception. -/
def swapList : List JsonV → Except Unit (List (JsonV × JsonV))
  | [] => .ok []
  | c :: rest => do
    let a ← jIndexE c 1
    let b ← jIndexE c 0
    let rs ← swapList rest
    pure ((a, b) :: rs)

/-- `[(coord[1], coord[0]) for coord in l]` (the lon/lat swap). -/
def swapCoordsE (l : JsonV) : Except Unit (List (JsonV × JsonV)) := do
  let items ← jIterateE l
  swapList items

/-- `swapCoordsE` over each segment of a `MultiLineString`, in order. -/
def swapSegs : List JsonV → Except Unit (List (List (JsonV × JsonV)))
  | [] => .ok []
  | s :: rest => do
    let c ← swapCoordsE s
    let rs ← swapSegs rest
    pure (c :: rs)

/-- The feature scan of lines 950-962: the first feature whose geometry is a
`LineString`/`MultiLineString` returns; other geometries are skipped. -/
def extractFeatLoop : List JsonV → Except Unit (Option (List (JsonV × JsonV)))
  | [] => pure none
  | f :: rest => do
    let hasG ← jContainsE f "geometry"
    if hasG then
      let geom ← jGetItemE f "geometry"
      let ty ← jGetItemE geom "type"
      if ty == JsonV.str "LineString" then
        let cs ← jGetItemE geom "coordinates"
        let r ← swapCoordsE cs
        pure (some r)
      else if ty == JsonV.str "MultiLineString" then
        let cs ← jGetItemE geom "coordinates"
        let segs ← jIterateE cs
        let rs ← swapSegs segs
        pure (some rs.flatten)
      else extractFeatLoop rest
    else extractFeatLoop rest

/-- `(p['lat'], p['lon'])` for each path point, in order. -/
def pathPoints : List JsonV → Except Unit (List (JsonV × JsonV))
  | [] => .ok []
  | pt :: rest => do
    let la ← jGetItemE pt "lat"
    let lo ← jGetItemE pt "lon"
    let rs ← pathPoints rest
    pure ((la, lo) :: rs)

/-- Body of `extract_route_coordinates`; `.error` is an exception reaching
the outer `except`, which returns `None`. -/
def extractBodyE (rd : JsonV) : Except Unit (Option (List (JsonV × JsonV))) := do
  let b1 ← jContainsE rd "features"
  let r1 ←
    if b1 then do
      let feats ← jGetItemE rd "features"
      let items ← jIterateE feats
      extractFeatLoop items
    else pure none
  match r1 with
  | some r => pure (some r)
  | none => do
    let b2 ← jContainsE rd "path"
    let hasPath ←
      if b2 then do
        let p ← jGetItemE rd "path"
        let n ← jLenE p
        pure (decide (0 < n))
      else pure false
    if hasPath then do
      let p ← jGetItemE rd "path"
      let items ← jIterateE p
      let coords ← pathPoints items
      pure (some coords)
    else do
      let b3 ← jContainsE rd "polyline"
      let usePoly ←
        if b3 then do
          let v ← jGetItemE rd "polyline"
          pure (jTruthy v)
        else pure false
      if usePoly then do
        let v ← jGetItemE rd "polyline"
        match v with
        | .str s =>
          match polylineDecode s with
          | some ps => pure (some (ps.map (fun q => (JsonV.num q.1, JsonV.num q.2))))
          | none => Except.error ()
        | _ => Except.error ()
      else pure none

/-- `extract_route_coordinates` (lines 938-979). -/
def extract_route_coordinates (rd : JsonV) : Option (List (JsonV × JsonV)) :=
  match extractBodyE rd with
  | .ok r => r
  | .error _ => none

/-! ## Rendering models

A polyline is recorded by its point list ((lat, lon) values) and its
`dashArray`.  `RouteOut` collects what one render (or one route of the
multi-route renderer) observably did. -/

structure Polyline where
  points : List (JsonV × JsonV)
  dash : Option String

structure RouteOut where
  line_added : Bool
  polylines : List Polyline
  fallbackWarned : Bool
  errored : Bool
  warnedInsufficient : Bool

/-- A `MultiLineString` segment loop: segments are added one by one, and an
exception mid-loop (caught by the enclosing `try`) keeps the polylines
already added but leaves `line_added` unset. -/
def addSegs (dash : Option String) : List JsonV → List Polyline → Bool × List Polyline
  | [], acc => (true, acc)
  | seg :: rest, acc =>
    match swapCoordsE seg with
    | .ok cs => addSegs dash rest (acc ++ [⟨cs, dash⟩])
    | .error _ => (false, acc)

/-- Metrics of the API-first block (lines 267-274 plus the `:.1f`/`:.0f`
format specifiers of 282-283): observable only through the exceptions
non-numeric values raise. -/
def apiMetricsE (data feature : JsonV) : Except Unit Unit := do
  let d0 ← jGetAttrDE data "distance" (JsonV.num 0)
  let hp ← jContainsE feature "properties"
  let dist ←
    if hp then do
      let props ← jGetItemE feature "properties"
      let dv ← jGetAttrDE props "distance" d0
      let q ← jAsNumE dv
      pure (JsonV.num q)
    else pure d0
  let t0 ← jGetAttrDE data "time" (JsonV.num 0)
  let dur ←
    if hp then do
      let props ← jGetItemE feature "properties"
      let tv ← jGetAttrDE props "time" t0
      let q ← jAsNumE tv
      pure (JsonV.num q)
    else pure t0
  let _ ← jAsNumE dist
  let _ ← jAsNumE dur
  pure ()

/-- The API-first block of `display_route_on_map` (lines 253-302); the whole
block sits in a `try`, so an escaping exception yields no line. -/
def apiBlockE (apiKey : String) (outs : List Outcome) (rd sc ec : JsonV)
    (wps : List JsonV) : Except Unit (Bool × List Polyline) := do
  let vt ← jGetAttrDE rd "vehicle_type" (JsonV.str "car")
  let fr ← get_route_geometry apiKey sc ec wps vt outs
  match fr.result with
  | none => pure (false, [])
  | some data =>
    if jTruthy data then do
      let b ← jContainsE data "features"
      let ok1 ←
        if b then do
          let fv ← jGetItemE data "features"
          let n ← jLenE fv
          pure (decide (0 < n))
        else pure false
      if ok1 then do
        let fv ← jGetItemE data "features"
        let feature ← jIndexE fv 0
        let g ← jContainsE feature "geometry"
        if g then do
          let geom ← jGetItemE feature "geometry"
          let ty ← jGetItemE geom "type"
          if ty == JsonV.str "LineString" then do
            let cs ← jGetItemE geom "coordinates"
            let lineCoords ← swapCoordsE cs
            apiMetricsE data feature
            pure (true, [⟨lineCoords, none⟩])
          else if ty == JsonV.str "MultiLineString" then do
            let cs ← jGetItemE geom "coordinates"
            let segs ← jIterateE cs
            pure (addSegs none segs [])
          else pure (false, [])
        else pure (false, [])
      else pure (false, [])
    else pure (false, [])

def apiBlock (apiKey : String) (outs : List Outcome) (rd sc ec : JsonV)
    (wps : List JsonV) : Bool × List Polyline :=
  match apiBlockE apiKey outs rd sc ec wps with
  | .ok r => r
  | .error _ => (false, [])

/-- `distance`/`duration` computation of the route-data blocks
(lines 313-320 and 690-698): only refreshed from `properties` when the
route-data value is `== 0`. -/
def zeroMetricE (rd f : JsonV) (rdKey pKey : String) : Except Unit JsonV := do
  let d0 ← jGetAttrDE rd rdKey (JsonV.num 0)
  if JsonV.beq d0 (JsonV.num 0) then do
    let hp ← jContainsE f "properties"
    if hp then do
      let props ← jGetItemE f "properties"
      let dv ← jGetAttrDE props pKey (JsonV.num 0)
      let q ← jAsNumE dv
      pure (JsonV.num q)
    else pure d0
  else pure d0

/-- The per-feature `try` of lines 308-331 (`LineString` case). -/
def singleFeatTryLS (rd f geom : JsonV) : Bool × List Polyline :=
  match (do
    let cs ← jGetItemE geom "coordinates"
    let lineCoords ← swapCoordsE cs
    let dist ← zeroMetricE rd f "total_distance_km" "distance"
    let dur ← zeroMetricE rd f "total_duration_minutes" "time"
    let _ ← jAsNumE dist
    let _ ← jAsNumE dur
    pure lineCoords : Except Unit (List (JsonV × JsonV))) with
  | .ok cs => (true, [⟨cs, none⟩])
  | .error _ => (false, [])

/-- The per-feature `try` of lines 333-343 (`MultiLineString` case). -/
def singleFeatTryMLS (geom : JsonV) : Bool × List Polyline :=
  match jGetItemE geom "coordinates" >>= jIterateE with
  | .ok segs => addSegs none segs []
  | .error _ => (false, [])

/-- One feature of lines 306-345.  The `.get('type')` on line 307 is outside
the `try`, so a non-dict geometry raises out of the whole function. -/
def rdFeatStep (rd f : JsonV) : Except Unit (Bool × List Polyline) := do
  let hasG ← jContainsE f "geometry"
  if hasG then do
    let geom ← jGetItemE f "geometry"
    let tyOpt ← jGetAttrE geom "type"
    if tyOpt == some (JsonV.str "LineString") then
      pure (singleFeatTryLS rd f geom)
    else if tyOpt == some (JsonV.str "MultiLineString") then
      pure (singleFeatTryMLS geom)
    else pure (false, [])
  else pure (false, [])

def rdFeatLoop (rd : JsonV) : List JsonV → Bool → List Polyline →
    Except Unit (Bool × List Polyline)
  | [], added, acc => pure (added, acc)
  | f :: rest, added, acc => do
    let (b, ps) ← rdFeatStep rd f
    rdFeatLoop rd rest (added || b) (acc ++ ps)

/-- The route-data fallback block of `display_route_on_map`
(lines 305-345). -/
def singleRdBlock (rd : JsonV) (line_added : Bool) :
    Except Unit (Bool × List Polyline) := do
  if line_added then pure (false, [])
  else do
    let b ← jContainsE rd "features"
    if b then do
      let feats ← jGetItemE rd "features"
      let items ← jIterateE feats
      rdFeatLoop rd items false []
    else pure (false, [])

/-- The waypoint-marker loop of lines 232-246: each waypoint needs to be a
dict (for `wp.get('name')` in the popup) with `lat`/`lon` items; records the
(lat, lon) values. -/
def markerPoints : List JsonV → Except Unit (List (JsonV × JsonV))
  | [] => .ok []
  | wp :: rest => do
    let _ ← jGetAttrE wp "name"
    let la ← jGetItemE wp "lat"
    let lo ← jGetItemE wp "lon"
    let rs ← markerPoints rest
    pure ((la, lo) :: rs)

/-- `display_route_on_map` (lines 191-395).  Returns `.error` when an
exception escapes the function (malformed start/end/waypoints); otherwise
records the added polylines, the final `line_added`, and whether the
straight-line fallback warning was shown. -/
def display_route_on_map (apiKey : String) (outs : List Outcome)
    (route_data start_coord end_coord : JsonV) (waypoints : List JsonV) :
    Except Unit RouteOut := do
  let slat ← jGetItemE start_coord "lat" >>= jAsNumE
  let elat ← jGetItemE end_coord "lat" >>= jAsNumE
  let slon ← jGetItemE start_coord "lon" >>= jAsNumE
  let elon ← jGetItemE end_coord "lon" >>= jAsNumE
  let wpPts ← markerPoints waypoints
  let (b1, p1) := apiBlock apiKey outs route_data start_coord end_coord waypoints
  let (b2, p2) ← singleRdBlock route_data b1
  let lineAdded := b1 || b2
  let (p3, warned, laFinal) :=
    if lineAdded then (([] : List Polyline), false, lineAdded)
    else
      ([⟨(JsonV.num slat, JsonV.num slon) :: (wpPts ++ [(JsonV.num elat, JsonV.num elon)]),
         some "5, 5"⟩], true, true)
  pure ⟨laFinal, p1 ++ p2 ++ p3, warned, false, false⟩

/-- The intermediate-waypoint loop of `display_route_map` (lines 411-418):
waypoints with a `location` yield (lat, lon, name) triples. -/
def drmMids : List JsonV → Except Unit (List (JsonV × JsonV × JsonV))
  | [] => .ok []
  | wp :: rest => do
    let hasLoc ← jContainsE wp "location"
    if hasLoc then do
      let loc ← jGetItemE wp "location"
      let la ← jIndexE loc 0
      let lo ← jIndexE loc 1
      let nm ← jGetAttrDE wp "name" (JsonV.str "Parada")
      let rs ← drmMids rest
      pure ((la, lo, nm) :: rs)
    else drmMids rest

/-- The embedded-geometry block of `display_route_map` (lines 451-474),
run when `'geometry' in route_data`; entirely inside a `try`. -/
def drmGeomBlock (rd : JsonV) : Bool × List Polyline :=
  match (do
    let geom ← jGetItemE rd "geometry"
    let ty ← jGetItemE geom "type"
    pure (geom, ty) : Except Unit (JsonV × JsonV)) with
  | .error _ => (false, [])
  | .ok (geom, ty) =>
    if JsonV.beq ty (.str "LineString") then
      match jGetItemE geom "coordinates" >>= swapCoordsE with
      | .ok cs => (true, [⟨cs, none⟩])
      | .error _ => (false, [])
    else if JsonV.beq ty (.str "MultiLineString") then
      match jGetItemE geom "coordinates" >>= jIterateE with
      | .ok segs => addSegs none segs []
      | .error _ => (false, [])
    else (false, [])

/-- The API block of `display_route_map` (lines 477-509): fetches with mode
`"car"` and then checks `route_geom['type']` on the returned value;
entirely inside a `try`. -/
def drmApiBlock (apiKey : String) (outs : List Outcome) (sc ec : JsonV)
    (intermediates : List JsonV) : Bool × List Polyline :=
  match get_route_geometry apiKey sc ec intermediates (JsonV.str "car") outs with
  | .error _ => (false, [])
  | .ok fr =>
    match fr.result with
    | none => (false, [])
    | some d =>
      if jTruthy d then
        match jGetItemE d "type" with
        | .error _ => (false, [])
        | .ok ty =>
          if JsonV.beq ty (.str "LineString") then
            match jGetItemE d "coordinates" >>= swapCoordsE with
            | .ok cs => (true, [⟨cs, none⟩])
            | .error _ => (false, [])
          else if JsonV.beq ty (.str "MultiLineString") then
            match jGetItemE d "coordinates" >>= jIterateE with
            | .ok segs => addSegs none segs []
            | .error _ => (false, [])
          else (false, [])
      else (false, [])

/-- Body of `display_route_map` (lines 397-552), before the outer
`except`. -/
def display_route_map_body (apiKey : String) (outs : List Outcome) (rd : JsonV) :
    Except Unit RouteOut := do
  let hasW ← jContainsE rd "waypoints"
  if hasW then do
    let wps ← jGetItemE rd "waypoints"
    let n ← jLenE wps
    if 2 ≤ n then do
      let w0 ← jIndexE wps 0
      let loc0 ← jGetAttrDE w0 "location" (JsonV.arr [JsonV.num 0, JsonV.num 0])
      let sla ← jIndexE loc0 0
      let slo ← jIndexE loc0 1
      let wl ← jIndexLastE wps
      let locL ← jGetAttrDE wl "location" (JsonV.arr [JsonV.num 0, JsonV.num 0])
      let ela ← jIndexE locL 0
      let elo ← jIndexE locL 1
      let mids ←
        match wps with
        | JsonV.arr l => drmMids ((l.drop 1).dropLast)
        | _ => Except.error ()
      let _ ← jAsNumE sla
      let _ ← jAsNumE ela
      let _ ← jAsNumE slo
      let _ ← jAsNumE elo
      let start_coord := JsonV.obj [("lat", sla), ("lon", slo)]
      let end_coord := JsonV.obj [("lat", ela), ("lon", elo)]
      let midObjs := mids.map (fun m =>
        JsonV.obj [("lat", m.1), ("lon", m.2.1), ("name", m.2.2)])
      let hasG ← jContainsE rd "geometry"
      let (b1, p1) := if hasG then drmGeomBlock rd else (false, [])
      let (b2, p2) :=
        if b1 then (false, [])
        else drmApiBlock apiKey outs start_coord end_coord midObjs
      let lineAdded := b1 || b2
      let (p3, fw) :=
        if lineAdded then (([] : List Polyline), false)
        else
          ([⟨(sla, slo) :: (mids.map (fun m => (m.1, m.2.1)) ++ [(ela, elo)]),
             some "5, 5"⟩], true)
      pure ⟨lineAdded, p1 ++ p2 ++ p3, fw, false, false⟩
    else
      pure ⟨false, [], false, false, true⟩
  else
    display_route_on_map apiKey outs rd
      (JsonV.obj [("lat", JsonV.num 0), ("lon", JsonV.num 0)])
      (JsonV.obj [("lat", JsonV.num 0), ("lon", JsonV.num 0)]) []

/-- `display_route_map` (lines 397-552); the outer `except` turns any
escaping exception into a user-visible error with nothing rendered. -/
def display_route_map (apiKey : String) (outs : List Outcome) (rd : JsonV) :
    RouteOut :=
  match display_route_map_body apiKey outs rd with
  | .ok r => r
  | .error _ => ⟨false, [], false, true, false⟩

/-! ## `display_multiple_routes_on_map` (lines 554-915) -/

/-- The per-feature `try` of lines 684-737, `LineString` case: the popup
(lines 700-711) needs `vehicle['license_plate']` and formats `distance`
with `:.1f` (duration is computed but not formatted there). -/
def multiFeatTryLS (rd f geom vehicle : JsonV) (dash : Option String) :
    Bool × List Polyline :=
  match (do
    let cs ← jGetItemE geom "coordinates"
    let lineCoords ← swapCoordsE cs
    let dist ← zeroMetricE rd f "total_distance_km" "distance"
    let _dur ← zeroMetricE rd f "total_duration_minutes" "time"
    let _ ← jGetItemE vehicle "license_plate"
    let _ ← jAsNumE dist
    pure lineCoords : Except Unit (List (JsonV × JsonV))) with
  | .ok cs => (true, [⟨cs, dash⟩])
  | .error _ => (false, [])

def multiFeatTryMLS (geom : JsonV) (dash : Option String) : Bool × List Polyline :=
  match jGetItemE geom "coordinates" >>= jIterateE with
  | .ok segs => addSegs dash segs []
  | .error _ => (false, [])

/-- One feature of lines 682-737; `feature['geometry'].get('type')`
(line 683) is outside the `try`. -/
def multiFeatStep (rd f vehicle : JsonV) (dash : Option String) :
    Except Unit (Bool × List Polyline) := do
  let hasG ← jContainsE f "geometry"
  if hasG then do
    let geom ← jGetItemE f "geometry"
    let tyOpt ← jGetAttrE geom "type"
    if tyOpt == some (JsonV.str "LineString") then
      pure (multiFeatTryLS rd f geom vehicle dash)
    else if tyOpt == some (JsonV.str "MultiLineString") then
      pure (multiFeatTryMLS geom dash)
    else pure (false, [])
  else pure (false, [])

def multiFeatLoop (rd vehicle : JsonV) (dash : Option String) :
    List JsonV → Bool → List Polyline → Except Unit (Bool × List Polyline)
  | [], added, acc => pure (added, acc)
  | f :: rest, added, acc => do
    let (b, ps) ← multiFeatStep rd f vehicle dash
    multiFeatLoop rd vehicle dash rest (added || b) (acc ++ ps)

/-- Método 1 of one multi-route (lines 681-737). -/
def multiFeatBlock (rd vehicle : JsonV) (dash : Option String) :
    Except Unit (Bool × List Polyline) := do
  let b ← jContainsE rd "features"
  if b then do
    let feats ← jGetItemE rd "features"
    let items ← jIterateE feats
    multiFeatLoop rd vehicle dash items false []
  else pure (false, [])

/-- Método 2 of one multi-route (lines 739-771): the condition on line 740
is outside the `try`, the body inside it. -/
def multiPathBlock (rd vehicle : JsonV) (dash : Option String) :
    Except Unit (Bool × List Polyline) := do
  let b ← jContainsE rd "path"
  let cond ←
    if b then do
      let p ← jGetItemE rd "path"
      let n ← jLenE p
      pure (decide (1 < n))
    else pure false
  if cond then
    match (do
      let p ← jGetItemE rd "path"
      let items ← jIterateE p
      let coords ← pathPoints items
      let dist ← jGetAttrDE rd "total_distance_km" (JsonV.num 0)
      let dur ← jGetAttrDE rd "total_duration_minutes" (JsonV.num 0)
      let _ ← jGetItemE vehicle "license_plate"
      let _ ← jAsNumE dist
      let _ ← jAsNumE dur
      pure coords : Except Unit (List (JsonV × JsonV))) with
    | .ok cs => pure (true, [⟨cs, dash⟩])
    | .error _ => pure (false, [])
  else pure (false, [])

/-- Método 3 of one multi-route (lines 773-829): classify the vehicle, call
the routing API, then check `route_geom['type']` on the returned value;
entirely inside a `try`. -/
def multiApiBlock (apiKey : String) (outs : List Outcome) (sc ec vehicle rd : JsonV)
    (passengers : List JsonV) (dash : Option String) : Bool × List Polyline :=
  match (do
    let hasModel ← jContainsE vehicle "model"
    let vt ←
      if hasModel then do
        let mv ← jGetItemE vehicle "model"
        match mv with
        | JsonV.str s => pure (get_vehicle_type (some s))
        | v => if jTruthy v then Except.error () else pure "car"
      else pure "car"
    get_route_geometry apiKey sc ec passengers (JsonV.str vt) outs :
    Except Unit FetchResult) with
  | .error _ => (false, [])
  | .ok fr =>
    match fr.result with
    | none => (false, [])
    | some d =>
      if jTruthy d then
        match jGetItemE d "type" with
        | .error _ => (false, [])
        | .ok ty =>
          if JsonV.beq ty (.str "LineString") then
            match (do
              let cs ← jGetItemE d "coordinates"
              let lineCoords ← swapCoordsE cs
              let dist ← jGetAttrDE rd "total_distance_km" (JsonV.num 0)
              let dur ← jGetAttrDE rd "total_duration_minutes" (JsonV.num 0)
              let _ ← jGetItemE vehicle "license_plate"
              let _ ← jAsNumE dist
              let _ ← jAsNumE dur
              pure lineCoords : Except Unit (List (JsonV × JsonV))) with
            | .ok cs => (true, [⟨cs, dash⟩])
            | .error _ => (false, [])
          else if JsonV.beq ty (.str "MultiLineString") then
            match jGetItemE d "coordinates" >>= jIterateE with
            | .ok segs => addSegs dash segs []
            | .error _ => (false, [])
          else (false, [])
      else (false, [])

/-- Método 4 of one multi-route (lines 831-853): the straight-line fallback.
Note it does NOT set `line_added`.  Returns (polylines, fallback warning
shown, error shown). -/
def multiFallback (sc ec : JsonV) (ppts : List (JsonV × JsonV)) :
    List Polyline × Bool × Bool :=
  match (do
    let sl ← jGetItemE sc "lat"
    let so ← jGetItemE sc "lon"
    let el ← jGetItemE ec "lat"
    let eo ← jGetItemE ec "lon"
    pure ((sl, so), (el, eo)) :
    Except Unit ((JsonV × JsonV) × (JsonV × JsonV))) with
  | .ok ((sl, so), (el, eo)) =>
    ([⟨(sl, so) :: (ppts ++ [(el, eo)]), some "5, 5"⟩], true, false)
  | .error _ => ([], false, true)

/-- The occupancy computation of line 631: when `seats` is truthy it is used
as a division operand, so it must be numeric. -/
def seatsCheckE (seats : JsonV) : Except Unit Unit :=
  if jTruthy seats then
    match jAsNumE seats with
    | .ok _ => .ok ()
    | .error _ => .error ()
  else .ok ()

/-- Método 2 runs only when método 1 added no line (line 740). -/
def multiPathStep (b1 : Bool) (rd vehicle : JsonV) (dash : Option String) :
    Except Unit (Bool × List Polyline) :=
  if b1 then pure (false, []) else multiPathBlock rd vehicle dash

/-- The passenger-marker loop of lines 651-675: each popup needs the
passenger to be a dict and `vehicle['license_plate']` to exist. -/
def passengerPoints (vehicle : JsonV) : List JsonV → Except Unit (List (JsonV × JsonV))
  | [] => .ok []
  | wp :: rest => do
    let _ ← jGetAttrE wp "name"
    let _ ← jGetItemE vehicle "license_plate"
    let la ← jGetItemE wp "lat"
    let lo ← jGetItemE wp "lon"
    let rs ← passengerPoints vehicle rest
    pure ((la, lo) :: rs)

/-- One iteration of the route loop of `display_multiple_routes_on_map`
(lines 615-856). -/
def processRoute (apiKey : String) (outs : List Outcome) (i : Nat)
    (sc ec route_info : JsonV) : Except Unit RouteOut := do
  let _rid ← jGetAttrE route_info "route_id"
  let vehicle ← jGetItemE route_info "vehicle"
  let rd ← jGetItemE route_info "route_data"
  let passengers ← jGetItemE route_info "passengers"
  let _et ← jGetAttrE route_info "estimated_time"
  let _model ← jGetItemE vehicle "model"
  let style := get_line_style i
  let seats ← jGetAttrDE vehicle "seats" (JsonV.num 0)
  let _n ← jLenE passengers
  let _ ← seatsCheckE seats
  let pitems ← jIterateE passengers
  let ppts ← passengerPoints vehicle pitems
  let (b1, p1) ← multiFeatBlock rd vehicle style.dashArray
  let (b2, p2) ← multiPathStep b1 rd vehicle style.dashArray
  let la1 := b1 || b2
  let (b3, p3) := if la1 then (false, ([] : List Polyline))
    else multiApiBlock apiKey outs sc ec vehicle rd pitems style.dashArray
  let lineAdded := la1 || b3
  let (p4, fw, er) :=
    if lineAdded then (([] : List Polyline), false, false)
    else multiFallback sc ec ppts
  pure ⟨lineAdded, p1 ++ p2 ++ p3 ++ p4, fw, er, false⟩

def multiLoop (apiKey : String) (outss : List (List Outcome)) (sc ec : JsonV) :
    Nat → List JsonV → Except Unit (List RouteOut)
  | _, [] => pure []
  | i, ri :: rest => do
    let out ← processRoute apiKey (outss.getD i []) i sc ec ri
    let rest' ← multiLoop apiKey outss sc ec (i + 1) rest
    pure (out :: rest')

/-- `display_multiple_routes_on_map` (lines 554-915).  `outss` supplies the
network outcomes of route `i`'s API call; the map-center computations
(lines 565-566) require numeric start/end coordinates before any route is
processed. -/
def display_multiple_routes_on_map (apiKey : String) (outss : List (List Outcome))
    (routes_info : List JsonV) (sc ec : JsonV) : Except Unit (List RouteOut) := do
  let _ ← jGetItemE sc "lat" >>= jAsNumE
  let _ ← jGetItemE ec "lat" >>= jAsNumE
  let _ ← jGetItemE sc "lon" >>= jAsNumE
  let _ ← jGetItemE ec "lon" >>= jAsNumE
  multiLoop apiKey outss sc ec 0 routes_info

/-- Concrete values used by witnesses and counterexamples. -/
def c1mRouteInfo : JsonV :=
  JsonV.obj [("vehicle", JsonV.obj [("model", JsonV.str "Carro"),
                                    ("license_plate", JsonV.str "ABC")]),
             ("route_data", JsonV.obj []), ("passengers", JsonV.arr [])]

def ptA : JsonV := JsonV.obj [("lat", JsonV.num 1), ("lon", JsonV.num 2)]
def ptB : JsonV := JsonV.obj [("lat", JsonV.num 3), ("lon", JsonV.num 4)]

def emptyMLSResp : JsonV :=
  JsonV.obj [("features", JsonV.arr [JsonV.obj
    [("geometry", JsonV.obj [("type", JsonV.str "MultiLineString"),
                             ("coordinates", JsonV.arr [])])]])]

def advResp : JsonV :=
  JsonV.obj [("type", JsonV.str "LineString"),
    ("coordinates", JsonV.arr [JsonV.arr [JsonV.num 10, JsonV.num 20],
                               JsonV.arr [JsonV.num 30, JsonV.num 40]]),
    ("features", JsonV.arr [JsonV.obj [("geometry", JsonV.obj [])]])]

def drmWaypoints : JsonV :=
  JsonV.obj [("waypoints", JsonV.arr
    [JsonV.obj [("location", JsonV.arr [JsonV.num 1, JsonV.num 2])],
     JsonV.obj [("location", JsonV.arr [JsonV.num 3, JsonV.num 4])]])]

def wpZero : JsonV := JsonV.obj [("lat", JsonV.num 0), ("lon", JsonV.num 6)]

def fcResp : JsonV :=
  JsonV.obj [("type", JsonV.str "FeatureCollection"),
    ("features", JsonV.arr [JsonV.obj [("geometry",
      JsonV.obj [("type", JsonV.str "LineString"),
                 ("coordinates", JsonV.arr [JsonV.arr [JsonV.num 10, JsonV.num 20]])])]])]

/-! ## Supporting lemmas -/

mutual

theorem JsonV.beq_eq : ∀ a b : JsonV, JsonV.beq a b = true → a = b
  | .null, .null, _ => rfl
  | .bool a, .bool b, h => by simp [JsonV.beq] at h; simp [h]
  | .num a, .num b, h => by simp [JsonV.beq] at h; simp [h]
  | .str a, .str b, h => by simp [JsonV.beq] at h; simp [h]
  | .arr a, .arr b, h => by
      simp only [JsonV.beq] at h
      exact congrArg JsonV.arr (JsonV.beqL_eq a b h)
  | .obj a, .obj b, h => by
      simp only [JsonV.beq] at h
      exact congrArg JsonV.obj (JsonV.beqKV_eq a b h)

theorem JsonV.beqL_eq : ∀ a b : List JsonV, JsonV.beqL a b = true → a = b
  | [], [], _ => rfl
  | a :: as, b :: bs, h => by
      simp only [JsonV.beqL, Bool.and_eq_true] at h
      rw [JsonV.beq_eq a b h.1, JsonV.beqL_eq as bs h.2]

theorem JsonV.beqKV_eq : ∀ a b : List (String × JsonV), JsonV.beqKV a b = true → a = b
  | [], [], _ => rfl
  | (k1, v1) :: as, (k2, v2) :: bs, h => by
      simp only [JsonV.beqKV, Bool.and_eq_true] at h
      obtain ⟨⟨hk, hv⟩, hr⟩ := h
      rw [JsonV.beq_eq v1 v2 hv, JsonV.beqKV_eq as bs hr, eq_of_beq hk]

end

theorem JsonV.beq_false_of_ne {a b : JsonV} (h : a ≠ b) : JsonV.beq a b = false := by
  cases hb : JsonV.beq a b
  · rfl
  · exact absurd (JsonV.beq_eq a b hb) h

/-! ## Helper lemmas -/
@[simp] theorem jContainsE_obj (kvs : List (String × JsonV)) (k : String) :
    jContainsE (JsonV.obj kvs) k = .ok (lookupKV kvs k).isSome := rfl
@[simp] theorem jContainsE_arr (l : List JsonV) (k : String) :
    jContainsE (JsonV.arr l) k = .ok (l.any (fun e => JsonV.beq e (JsonV.str k))) := rfl
@[simp] theorem jContainsE_str (s : String) (k : String) :
    jContainsE (JsonV.str s) k = .ok (strContains s k) := rfl
@[simp] theorem jContainsE_null (k : String) : jContainsE JsonV.null k = .error () := rfl
@[simp] theorem jContainsE_bool (b : Bool) (k : String) :
    jContainsE (JsonV.bool b) k = .error () := rfl
@[simp] theorem jContainsE_num (q : ℚ) (k : String) :
    jContainsE (JsonV.num q) k = .error () := rfl

@[simp] theorem jGetItemE_obj (kvs : List (String × JsonV)) (k : String) :
    jGetItemE (JsonV.obj kvs) k =
      (match lookupKV kvs k with | some v => .ok v | none => .error ()) := rfl
@[simp] theorem jGetItemE_arr (l : List JsonV) (k : String) :
    jGetItemE (JsonV.arr l) k = .error () := rfl
@[simp] theorem jGetItemE_str (s : String) (k : String) :
    jGetItemE (JsonV.str s) k = .error () := rfl
@[simp] theorem jGetItemE_null (k : String) : jGetItemE JsonV.null k = .error () := rfl
@[simp] theorem jGetItemE_bool (b : Bool) (k : String) :
    jGetItemE (JsonV.bool b) k = .error () := rfl
@[simp] theorem jGetItemE_num (q : ℚ) (k : String) :
    jGetItemE (JsonV.num q) k = .error () := rfl

@[simp] theorem jGetAttrE_obj (kvs : List (String × JsonV)) (k : String) :
    jGetAttrE (JsonV.obj kvs) k = .ok (lookupKV kvs k) := rfl

@[simp] theorem jLenE_arr (l : List JsonV) : jLenE (JsonV.arr l) = .ok l.length := rfl
@[simp] theorem jLenE_str (s : String) : jLenE (JsonV.str s) = .ok s.length := rfl
@[simp] theorem jLenE_obj (l : List (String × JsonV)) :
    jLenE (JsonV.obj l) = .ok l.length := rfl
@[simp] theorem jLenE_num (q : ℚ) : jLenE (JsonV.num q) = .error () := rfl
@[simp] theorem jLenE_null : jLenE JsonV.null = .error () := rfl
@[simp] theorem jLenE_bool (b : Bool) : jLenE (JsonV.bool b) = .error () := rfl

@[simp] theorem jIndexE_arr (l : List JsonV) (i : Nat) :
    jIndexE (JsonV.arr l) i =
      (match l.get? i with | some v => .ok v | none => .error ()) := rfl
@[simp] theorem jIndexE_obj (kvs : List (String × JsonV)) (i : Nat) :
    jIndexE (JsonV.obj kvs) i = .error () := rfl

@[simp] theorem jAsNumE_num (q : ℚ) : jAsNumE (JsonV.num q) = .ok q := rfl

theorem checkData_spec (d : JsonV) :
    checkData d = if featuresShapeSpec d then some d else none := by
  have expand : ∀ x : JsonV, checkData x =
      (match checkDataE x with | .ok r => r | .error _ => none) := fun _ => rfl
  cases d with
  | null => rfl
  | bool b => rfl
  | num q => rfl
  | str s =>
    cases ha : strContains s "features" <;>
      simp [checkData, checkDataE, featuresShapeSpec, jGetKey, ha,
        bind, Except.bind, pure, Except.pure]
  | arr l =>
    cases ha : l.any (fun e => JsonV.beq e (JsonV.str "features")) <;>
      simp [checkData, checkDataE, featuresShapeSpec, jGetKey, ha,
        bind, Except.bind, pure, Except.pure]
  | obj kvs =>
    cases hl : lookupKV kvs "features" with
    | none =>
      simp [checkData, checkDataE, featuresShapeSpec, jGetKey, hl,
        bind, Except.bind, pure, Except.pure]
    | some fv =>
      cases fv with
      | null =>
        simp [checkData, checkDataE, featuresShapeSpec, jGetKey, hl,
          bind, Except.bind, pure, Except.pure]
      | bool b =>
        simp [checkData, checkDataE, featuresShapeSpec, jGetKey, hl,
          bind, Except.bind, pure, Except.pure]
      | num q =>
        simp [checkData, checkDataE, featuresShapeSpec, jGetKey, hl,
          bind, Except.bind, pure, Except.pure]
      | str s =>
        cases hs : s.data with
        | nil =>
          have hlen : s.length = 0 := by simp [String.length, hs]
          simp [checkData, checkDataE, featuresShapeSpec, jGetKey, hl, hlen,
            bind, Except.bind, pure, Except.pure]
        | cons c cs =>
          have hlen : 0 < s.length := by simp [String.length, hs]
          simp [checkData, checkDataE, featuresShapeSpec, jGetKey, hl, hlen, hs,
            jIndexE, strContains, hasNeedle, needleAt,
            bind, Except.bind, pure, Except.pure]
      | arr l =>
        cases l with
        | nil =>
          simp [checkData, checkDataE, featuresShapeSpec, jGetKey, hl,
            bind, Except.bind, pure, Except.pure]
        | cons f fs =>
          cases hg : jContainsE f "geometry" with
          | ok b =>
            cases b <;>
              simp [checkData, checkDataE, featuresShapeSpec, jGetKey, hl, hg,
                bind, Except.bind, pure, Except.pure]
          | error e =>
            simp [checkData, checkDataE, featuresShapeSpec, jGetKey, hl, hg,
              bind, Except.bind, pure, Except.pure]
      | obj l =>
        cases l with
        | nil =>
          simp [checkData, checkDataE, featuresShapeSpec, jGetKey, hl,
            bind, Except.bind, pure, Except.pure]
        | cons kv rest =>
          simp [checkData, checkDataE, featuresShapeSpec, jGetKey, hl,
            bind, Except.bind, pure, Except.pure]

theorem lookupKV_ne_nil {kvs : List (String × JsonV)} {k : String} {v : JsonV}
    (h : lookupKV kvs k = some v) : kvs ≠ [] := by
  intro he; subst he; simp [lookupKV] at h

theorem featuresShape_contains {d : JsonV} (h : featuresShapeSpec d = true) :
    jContainsE d "features" = .ok true ∧ jTruthy d = true := by
  unfold featuresShapeSpec at h
  cases d with
  | obj kvs =>
    cases hl : lookupKV kvs "features" with
    | none => rw [jGetKey] at h; rw [hl] at h; simp at h
    | some fv =>
      rw [jGetKey] at h; rw [hl] at h
      constructor
      · simp [hl]
      · simp [jTruthy, List.isEmpty_eq_true]
        exact lookupKV_ne_nil hl
  | null => simp [jGetKey] at h
  | bool b => simp [jGetKey] at h
  | num q => simp [jGetKey] at h
  | str s => simp [jGetKey] at h
  | arr l => simp [jGetKey] at h

theorem routeLoop_some (outs : List Outcome) :
    ∀ fuel attempt delay x, (routeLoop outs fuel attempt delay).1 = some x →
      featuresShapeSpec x = true := by
  intro fuel
  induction fuel with
  | zero => intro a d x h; simp [routeLoop] at h
  | succ n ih =>
    intro a d x h
    simp only [routeLoop] at h
    cases ho : outs.getD a Outcome.exc with
    | timeout =>
      rw [ho] at h
      by_cases hn : n = 0
      · rw [if_pos hn] at h; simp at h
      · rw [if_neg hn] at h
        exact ih (a + 1) (d * 2) x h
    | httpErr => rw [ho] at h; simp at h
    | exc => rw [ho] at h; simp at h
    | ok data =>
      rw [ho] at h
      simp only at h
      rw [checkData_spec] at h
      by_cases hs : featuresShapeSpec data = true
      · rw [if_pos hs] at h
        cases h
        exact hs
      · rw [if_neg hs] at h
        simp at h

theorem routeLoop_attempts_le (outs : List Outcome) :
    ∀ fuel attempt delay, (routeLoop outs fuel attempt delay).2.1 ≤ attempt + fuel := by
  intro fuel
  induction fuel with
  | zero => intro a d; simp [routeLoop]
  | succ n ih =>
    intro a d
    simp only [routeLoop]
    cases ho : outs.getD a Outcome.exc with
    | timeout =>
      by_cases hn : n = 0
      · rw [if_pos hn]; simp
      · rw [if_neg hn]
        have := ih (a + 1) (d * 2)
        simp only
        omega
    | httpErr => simp
    | exc => simp
    | ok data => simp

theorem get_route_geometry_run (apiKey : String) (sp ep : JsonV) (wps : List JsonV)
    (vt : String) (outs : List Outcome) (hk : apiKey ≠ "")
    (hv : validPoints sp ep = true) :
    get_route_geometry apiKey sp ep wps (JsonV.str vt) outs =
      .ok ⟨(routeLoop outs 3 0 2).1, (routeLoop outs 3 0 2).2.1,
           (routeLoop outs 3 0 2).2.2, false,
           some (sp :: (wps.filter wpValid ++ [ep]))⟩ := by
  simp [get_route_geometry, hk, hv]

theorem routeLoop_policy (outs : List Outcome) :
    (routeLoop outs 3 0 2).2.2 = [2, 4].take ((routeLoop outs 3 0 2).2.1 - 1) ∧
    ∀ j, j + 1 < (routeLoop outs 3 0 2).2.1 → outs.getD j Outcome.exc = Outcome.timeout := by
  cases h0 : outs.getD 0 Outcome.exc with
  | timeout =>
    cases h1 : outs.getD 1 Outcome.exc with
    | timeout =>
      cases h2 : outs.getD 2 Outcome.exc <;>
      · simp only [List.getD, List.get?_eq_getElem?] at h0 h1 h2
        simp [routeLoop, List.getD, h0, h1, h2]
        intro j hj
        rcases j with _ | _ | j
        · simpa [List.getD, List.get?_eq_getElem?] using h0
        · simpa [List.getD, List.get?_eq_getElem?] using h1
        · omega
    | httpErr =>
      simp only [List.getD, List.get?_eq_getElem?] at h0 h1
      simp [routeLoop, List.getD, h0, h1]
      intro j hj
      rcases j with _ | j
      · simpa [List.getD, List.get?_eq_getElem?] using h0
      · omega
    | exc =>
      simp only [List.getD, List.get?_eq_getElem?] at h0 h1
      simp [routeLoop, List.getD, h0, h1]
      intro j hj
      rcases j with _ | j
      · simpa [List.getD, List.get?_eq_getElem?] using h0
      · omega
    | ok data =>
      simp only [List.getD, List.get?_eq_getElem?] at h0 h1
      simp [routeLoop, List.getD, h0, h1]
      intro j hj
      rcases j with _ | j
      · simpa [List.getD, List.get?_eq_getElem?] using h0
      · omega
  | httpErr =>
    simp only [List.getD, List.get?_eq_getElem?] at h0
    simp [routeLoop, List.getD, h0]
  | exc =>
    simp only [List.getD, List.get?_eq_getElem?] at h0
    simp [routeLoop, List.getD, h0]
  | ok data =>
    simp only [List.getD, List.get?_eq_getElem?] at h0
    simp [routeLoop, List.getD, h0]

/-- C5 statement. -/
theorem fetch_no_key (sp ep : JsonV) (wps : List JsonV) (vt : JsonV) (outs : List Outcome) :
    get_route_geometry "" sp ep wps vt outs =
      Except.ok ⟨none, 0, [], true, none⟩ := by
  simp [get_route_geometry]

theorem fetch_attempts_le (apiKey : String) (sp ep : JsonV) (wps : List JsonV) (vt : JsonV)
    (outs : List Outcome) (fr : FetchResult)
    (h : get_route_geometry apiKey sp ep wps vt outs = Except.ok fr) :
    fr.attempts ≤ 3 := by
  by_cases hk : apiKey = ""
  · subst hk
    rw [fetch_no_key] at h
    injection h with h'
    rw [← h']
    simp
  · cases vt with
    | str vt' =>
      by_cases hv : validPoints sp ep = true
      · rw [get_route_geometry_run apiKey sp ep wps vt' outs hk hv] at h
        injection h with h'
        rw [← h']
        have := routeLoop_attempts_le outs 3 0 2
        simpa using this
      · simp [get_route_geometry, hk, hv] at h
        rw [← h]
        simp
    | null => simp [get_route_geometry, hk] at h
    | bool b => simp [get_route_geometry, hk] at h
    | num q => simp [get_route_geometry, hk] at h
    | arr l => simp [get_route_geometry, hk] at h
    | obj kvs => simp [get_route_geometry, hk] at h

theorem fetch_three_timeouts (apiKey : String) (sp ep : JsonV) (wps : List JsonV) (vt : String)
    (hk : apiKey ≠ "") (hv : validPoints sp ep = true) :
    get_route_geometry apiKey sp ep wps (JsonV.str vt)
        [Outcome.timeout, Outcome.timeout, Outcome.timeout] =
      Except.ok ⟨none, 3, [2, 4], false, some (sp :: (wps.filter wpValid ++ [ep]))⟩ := by
  rw [get_route_geometry_run apiKey sp ep wps vt _ hk hv]
  rfl

theorem fetch_error_aborts (apiKey : String) (sp ep : JsonV) (wps : List JsonV) (vt : String)
    (rest : List Outcome) (hk : apiKey ≠ "") (hv : validPoints sp ep = true) :
    get_route_geometry apiKey sp ep wps (JsonV.str vt) (Outcome.httpErr :: rest) =
      Except.ok ⟨none, 1, [], false, some (sp :: (wps.filter wpValid ++ [ep]))⟩ ∧
    get_route_geometry apiKey sp ep wps (JsonV.str vt) (Outcome.exc :: rest) =
      Except.ok ⟨none, 1, [], false, some (sp :: (wps.filter wpValid ++ [ep]))⟩ := by
  constructor <;>
  · rw [get_route_geometry_run apiKey sp ep wps vt _ hk hv]
    rfl

theorem fetch_only_timeout_retried (apiKey : String) (sp ep : JsonV) (wps : List JsonV) (vt : String)
    (outs : List Outcome) (fr : FetchResult) (hk : apiKey ≠ "")
    (hv : validPoints sp ep = true)
    (h : get_route_geometry apiKey sp ep wps (JsonV.str vt) outs = Except.ok fr) :
    fr.sleeps = [2, 4].take (fr.attempts - 1) ∧
    ∀ j, j + 1 < fr.attempts → outs.getD j Outcome.exc = Outcome.timeout := by
  rw [get_route_geometry_run apiKey sp ep wps vt outs hk hv] at h
  injection h with h'
  rw [← h']
  exact routeLoop_policy outs

theorem fetch_shape_iff (apiKey : String) (sp ep : JsonV) (wps : List JsonV) (vt : String)
    (data : JsonV) (fr : FetchResult) (hk : apiKey ≠ "") (hv : validPoints sp ep = true)
    (h : get_route_geometry apiKey sp ep wps (JsonV.str vt) [Outcome.ok data] = Except.ok fr) :
    fr.result = some data ↔ featuresShapeSpec data = true := by
  rw [get_route_geometry_run apiKey sp ep wps vt _ hk hv] at h
  injection h with h'
  have hr : routeLoop [Outcome.ok data] 3 0 2 = (checkData data, 1, []) := rfl
  rw [← h']
  simp only [hr]
  rw [checkData_spec]
  by_cases hs : featuresShapeSpec data = true
  · simp [hs]
  · simp [hs]

theorem wpValid_iff (wp : JsonV) :
    wpValid wp = true ↔
      wp.isObj = true ∧
      (∃ v, jGetKey wp "lat" = some v ∧ jTruthy v = true) ∧
      (∃ v, jGetKey wp "lon" = some v ∧ jTruthy v = true) := by
  unfold wpValid
  cases hla : jGetKey wp "lat" <;> cases hlo : jGetKey wp "lon" <;>
    simp [hla, hlo, Bool.and_eq_true, and_assoc]

theorem wpValid_zero (wp : JsonV) (v : JsonV) (hla : jGetKey wp "lat" = some v)
    (hf : jTruthy v = false) : wpValid wp = false := by
  unfold wpValid
  rw [hla]
  simp [hf]

theorem color_empty_id_uses_index :
    ¬ (get_color_for_route 1 (some "") = get_color_for_route 2 (some "")) := by decide

theorem color_assignment_behavior :
    (∀ i j rid, rid ≠ "" →
       get_color_for_route i (some rid) =
         DISTINCT_COLORS.getD (md5HexInt rid % DISTINCT_COLORS.length) "" ∧
       get_color_for_route i (some rid) = get_color_for_route j (some rid)) ∧
    (∀ i, get_color_for_route i none = DISTINCT_COLORS.getD (i % 20) "" ∧
       get_color_for_route (i + 20) none = get_color_for_route i none) ∧
    (∀ i, get_color_for_route i (some "") = get_color_for_route i none) := by
  have hlen : DISTINCT_COLORS.length = 20 := rfl
  refine ⟨?_, ?_, ?_⟩
  · intro i j rid h
    constructor <;> simp [get_color_for_route, h]
  · intro i
    constructor
    · simp [get_color_for_route, hlen]
    · simp [get_color_for_route, hlen, Nat.add_mod_right]
  · intro i
    simp [get_color_for_route]

theorem vehicle_type_behavior :
    (∀ m, get_vehicle_type m = "car" ∨ get_vehicle_type m = "bus" ∨
       get_vehicle_type m = "van" ∨ get_vehicle_type m = "truck" ∨
       get_vehicle_type m = "motorcycle") ∧
    (∀ s k, k ∈ busKeywords → strContains (pyLower s) k = true →
       get_vehicle_type (some s) = "bus") ∧
    (∀ s, (∀ k, k ∈ busKeywords ++ vanKeywords ++ truckKeywords ++ motoKeywords →
         strContains (pyLower s) k = false) →
       get_vehicle_type (some s) = "car") ∧
    get_vehicle_type none = "car" ∧ get_vehicle_type (some "") = "car" := by
  refine ⟨?_, ?_, ?_, rfl, by decide⟩
  · intro m
    dsimp only [get_vehicle_type]
    split_ifs <;> simp
  · intro s k hk hc
    by_cases hs : s = ""
    · subst hs
      fin_cases hk <;> revert hc <;> decide
    · have hvm : (if s ≠ "" then pyLower s else "") = pyLower s := by simp [hs]
      have hany : busKeywords.any (fun k => strContains (pyLower s) k) = true :=
        List.any_eq_true.mpr ⟨k, hk, hc⟩
      dsimp only [get_vehicle_type]
      rw [hvm, hany]
      rfl
  · intro s h
    have hvm : (if s ≠ "" then pyLower s else "") = pyLower s := by
      by_cases hs : s = ""
      · subst hs; rfl
      · simp [hs]
    have hb : ∀ k ∈ busKeywords, ¬ strContains (pyLower s) k = true :=
      fun k hk => by simp [h k (by simp [List.mem_append, hk])]
    have hv : ∀ k ∈ vanKeywords, ¬ strContains (pyLower s) k = true :=
      fun k hk => by simp [h k (by simp [List.mem_append, hk])]
    have ht : ∀ k ∈ truckKeywords, ¬ strContains (pyLower s) k = true :=
      fun k hk => by simp [h k (by simp [List.mem_append, hk])]
    have hm : ∀ k ∈ motoKeywords, ¬ strContains (pyLower s) k = true :=
      fun k hk => by simp [h k (by simp [List.mem_append, hk])]
    dsimp only [get_vehicle_type]
    rw [hvm, List.any_eq_false.mpr hb, List.any_eq_false.mpr hv,
      List.any_eq_false.mpr ht, List.any_eq_false.mpr hm]
    rfl


theorem swapList_pairs (ps : List (JsonV × JsonV)) :
    swapList (ps.map (fun p => JsonV.arr [p.1, p.2])) =
      Except.ok (ps.map (fun p => (p.2, p.1))) := by
  induction ps with
  | nil => rfl
  | cons p rest ih =>
    simp [swapList, ih, bind, Except.bind, pure, Except.pure, List.get?]

theorem swapCoordsE_pairs (ps : List (JsonV × JsonV)) :
    swapCoordsE (JsonV.arr (ps.map (fun p => JsonV.arr [p.1, p.2]))) =
      Except.ok (ps.map (fun p => (p.2, p.1))) := by
  simp only [swapCoordsE, jIterateE, bind, Except.bind]
  exact swapList_pairs ps

theorem swapSegs_pairs (segs : List (List (JsonV × JsonV))) :
    swapSegs (segs.map (fun seg => JsonV.arr (seg.map (fun p => JsonV.arr [p.1, p.2])))) =
      Except.ok (segs.map (fun seg => seg.map (fun p => (p.2, p.1)))) := by
  induction segs with
  | nil => rfl
  | cons s rest ih =>
    simp [swapSegs, swapCoordsE_pairs, ih, bind, Except.bind, pure, Except.pure]

theorem pathPoints_pairs (ps : List (JsonV × JsonV)) :
    pathPoints (ps.map (fun p => JsonV.obj [("lat", p.1), ("lon", p.2)])) =
      Except.ok ps := by
  induction ps with
  | nil => rfl
  | cons p rest ih =>
    simp [pathPoints, ih, lookupKV, bind, Except.bind, pure, Except.pure]

example : lookupKV [("a", JsonV.null)] "a" = some JsonV.null := by simp [lookupKV]
example : lookupKV [("b", JsonV.null)] "a" = none := by simp [lookupKV]

@[simp] theorem jbeq_str_str (a b : String) :
    (JsonV.str a == JsonV.str b) = (a == b) := rfl

@[simp] theorem jbeq_some_str (a b : String) :
    (some (JsonV.str a) == some (JsonV.str b)) = (a == b) := by
  simp [BEq.beq]
  rfl

theorem extract_ls_beats_path (ps : List (JsonV × JsonV)) (pv : JsonV) :
    extract_route_coordinates (JsonV.obj [("features", JsonV.arr [JsonV.obj
      [("geometry", JsonV.obj [("type", JsonV.str "LineString"),
         ("coordinates", JsonV.arr (ps.map (fun p => JsonV.arr [p.1, p.2])))])]]),
      ("path", pv)]) =
      some (ps.map (fun p => (p.2, p.1))) := by
  simp [extract_route_coordinates, extractBodyE, extractFeatLoop, lookupKV,
    jIterateE, JsonV.beq, swapCoordsE_pairs, bind, Except.bind, pure, Except.pure]

theorem extract_mls_concat (segs : List (List (JsonV × JsonV))) :
    extract_route_coordinates (JsonV.obj [("features", JsonV.arr [JsonV.obj
      [("geometry", JsonV.obj [("type", JsonV.str "MultiLineString"),
         ("coordinates", JsonV.arr (segs.map (fun seg =>
           JsonV.arr (seg.map (fun p => JsonV.arr [p.1, p.2])))))])]])]) =
      some ((segs.map (fun seg => seg.map (fun p => (p.2, p.1)))).flatten) := by
  simp [extract_route_coordinates, extractBodyE, extractFeatLoop, lookupKV,
    jIterateE, JsonV.beq, swapSegs_pairs, bind, Except.bind, pure, Except.pure]

theorem extract_path_beats_polyline (ps : List (JsonV × JsonV)) (s : String) (h : ps ≠ []) :
    extract_route_coordinates (JsonV.obj
      [("path", JsonV.arr (ps.map (fun p => JsonV.obj [("lat", p.1), ("lon", p.2)]))),
       ("polyline", JsonV.str s)]) = some ps := by
  have hne : 0 < ps.length := List.length_pos.mpr h
  simp [extract_route_coordinates, extractBodyE, lookupKV, jIterateE,
    hne, pathPoints_pairs, bind, Except.bind, pure, Except.pure]

theorem extract_polyline_decode (s : String) (h : s ≠ "") :
    extract_route_coordinates (JsonV.obj [("polyline", JsonV.str s)]) =
      (polylineDecode s).map (fun l => l.map (fun q => (JsonV.num q.1, JsonV.num q.2))) := by
  cases hd : polylineDecode s with
  | some l =>
    simp [extract_route_coordinates, extractBodyE, lookupKV, jTruthy, h, hd,
      bind, Except.bind, pure, Except.pure]
  | none =>
    simp [extract_route_coordinates, extractBodyE, lookupKV, jTruthy, h, hd,
      bind, Except.bind, pure, Except.pure]

theorem extract_no_shape_none (kvs : List (String × JsonV)) (h1 : lookupKV kvs "features" = none)
    (h2 : lookupKV kvs "path" = none) (h3 : lookupKV kvs "polyline" = none) :
    extract_route_coordinates (JsonV.obj kvs) = none := by
  simp [extract_route_coordinates, extractBodyE, h1, h2, h3,
    bind, Except.bind, pure, Except.pure]

theorem routeLoop_t3 :
    routeLoop [Outcome.timeout, Outcome.timeout, Outcome.timeout] 3 0 2 =
      (none, 3, [2, 4]) := rfl

theorem apiBlock_t3 (apiKey : String) (kvs : List (String × JsonV)) (sp ep : JsonV)
    (wps : List JsonV) (hk : apiKey ≠ "") (hv : validPoints sp ep = true) :
    apiBlock apiKey [Outcome.timeout, Outcome.timeout, Outcome.timeout]
      (JsonV.obj kvs) sp ep wps = (false, []) := by
  unfold apiBlock apiBlockE
  cases hvt : lookupKV kvs "vehicle_type" with
  | none =>
    rw [jGetAttrDE]
    simp only [jGetAttrE_obj, hvt]
    simp only [bind, Except.bind]
    rw [get_route_geometry_run apiKey sp ep wps "car" _ hk hv]
    simp [routeLoop_t3, pure, Except.pure]
  | some v =>
    rw [jGetAttrDE]
    simp only [jGetAttrE_obj, hvt]
    cases v with
    | str s =>
      simp only [bind, Except.bind]
      rw [get_route_geometry_run apiKey sp ep wps s _ hk hv]
      simp [routeLoop_t3, pure, Except.pure]
    | null => simp [get_route_geometry, hk, bind, Except.bind]
    | bool b => simp [get_route_geometry, hk, bind, Except.bind]
    | num q => simp [get_route_geometry, hk, bind, Except.bind]
    | arr l => simp [get_route_geometry, hk, bind, Except.bind]
    | obj kvs2 => simp [get_route_geometry, hk, bind, Except.bind]

theorem singleRdBlock_nofeat (kvs : List (String × JsonV))
    (hf : lookupKV kvs "features" = none) (b : Bool) :
    singleRdBlock (JsonV.obj kvs) b = .ok (false, []) := by
  unfold singleRdBlock
  cases b <;> simp [hf, bind, Except.bind, pure, Except.pure]

theorem single_route_fallback_render (slat slon elat elon : ℚ) (wla wlo : JsonV) (apiKey : String)
    (kvs : List (String × JsonV)) (hk : apiKey ≠ "")
    (hf : lookupKV kvs "features" = none) :
    display_route_on_map apiKey [Outcome.timeout, Outcome.timeout, Outcome.timeout]
        (JsonV.obj kvs)
        (JsonV.obj [("lat", JsonV.num slat), ("lon", JsonV.num slon)])
        (JsonV.obj [("lat", JsonV.num elat), ("lon", JsonV.num elon)])
        [JsonV.obj [("lat", wla), ("lon", wlo)]] =
      Except.ok ⟨true,
        [⟨[(JsonV.num slat, JsonV.num slon), (wla, wlo), (JsonV.num elat, JsonV.num elon)],
          some "5, 5"⟩], true, false, false⟩ := by
  have hv : validPoints (JsonV.obj [("lat", JsonV.num slat), ("lon", JsonV.num slon)])
      (JsonV.obj [("lat", JsonV.num elat), ("lon", JsonV.num elon)]) = true := by
    simp [validPoints, jGetKey, lookupKV, JsonV.isObj]
  simp [display_route_on_map, lookupKV, markerPoints,
    apiBlock_t3 apiKey kvs _ _ _ hk hv,
    singleRdBlock_nofeat kvs hf,
    bind, Except.bind, pure, Except.pure]

theorem exceptBind_ok {α β : Type} {x : Except Unit α} {f : α → Except Unit β} {b : β}
    (h : (x >>= f) = Except.ok b) : ∃ a, x = Except.ok a ∧ f a = Except.ok b := by
  cases x with
  | ok a => exact ⟨a, rfl, h⟩
  | error e => simp [bind, Except.bind] at h

theorem single_route_line_added (apiKey : String) (outs : List Outcome) (rd sc ec : JsonV)
    (wps : List JsonV) (out : RouteOut)
    (h : display_route_on_map apiKey outs rd sc ec wps = Except.ok out) :
    out.line_added = true := by
  unfold display_route_on_map at h
  obtain ⟨slat, -, h⟩ := exceptBind_ok h
  try dsimp only at h
  obtain ⟨elat, -, h⟩ := exceptBind_ok h
  try dsimp only at h
  obtain ⟨slon, -, h⟩ := exceptBind_ok h
  try dsimp only at h
  obtain ⟨elon, -, h⟩ := exceptBind_ok h
  try dsimp only at h
  obtain ⟨wpPts, -, h⟩ := exceptBind_ok h
  try dsimp only at h
  rcases hab : apiBlock apiKey outs rd sc ec wps with ⟨b1, p1⟩
  rw [hab] at h
  try dsimp only at h
  obtain ⟨bp, -, h⟩ := exceptBind_ok h
  obtain ⟨b2, p2⟩ := bp
  try dsimp only at h
  cases hla : b1 || b2 with
  | true =>
    rw [hla] at h
    injection h with h2
    rw [← h2]
    simp
  | false =>
    rw [hla] at h
    injection h with h2
    rw [← h2]
    simp

theorem multiFallback_ok (sc ec : JsonV) (ppts : List (JsonV × JsonV))
    (h1 : ∃ a, jGetItemE sc "lat" = .ok a) (h2 : ∃ a, jGetItemE sc "lon" = .ok a)
    (h3 : ∃ a, jGetItemE ec "lat" = .ok a) (h4 : ∃ a, jGetItemE ec "lon" = .ok a) :
    ∃ sl so el eo, multiFallback sc ec ppts =
      ([⟨(sl, so) :: (ppts ++ [(el, eo)]), some "5, 5"⟩], true, false) := by
  obtain ⟨sl, h1⟩ := h1
  obtain ⟨so, h2⟩ := h2
  obtain ⟨el, h3⟩ := h3
  obtain ⟨eo, h4⟩ := h4
  refine ⟨sl, so, el, eo, ?_⟩
  unfold multiFallback
  simp [h1, h2, h3, h4, bind, Except.bind, pure, Except.pure]

theorem processRoute_draws (apiKey : String) (outs : List Outcome) (i : Nat) (sc ec ri : JsonV)
    (out : RouteOut)
    (h1 : ∃ a, jGetItemE sc "lat" = .ok a) (h2 : ∃ a, jGetItemE sc "lon" = .ok a)
    (h3 : ∃ a, jGetItemE ec "lat" = .ok a) (h4 : ∃ a, jGetItemE ec "lon" = .ok a)
    (h : processRoute apiKey outs i sc ec ri = Except.ok out) :
    out.line_added = true ∨ out.polylines ≠ [] := by
  unfold processRoute at h
  obtain ⟨rid, -, h⟩ := exceptBind_ok h
  try dsimp only at h
  obtain ⟨vehicle, -, h⟩ := exceptBind_ok h
  try dsimp only at h
  obtain ⟨rd, -, h⟩ := exceptBind_ok h
  try dsimp only at h
  obtain ⟨passengers, -, h⟩ := exceptBind_ok h
  try dsimp only at h
  obtain ⟨et, -, h⟩ := exceptBind_ok h
  try dsimp only at h
  obtain ⟨mdl, -, h⟩ := exceptBind_ok h
  try dsimp only at h
  obtain ⟨seats, -, h⟩ := exceptBind_ok h
  try dsimp only at h
  obtain ⟨n, -, h⟩ := exceptBind_ok h
  try dsimp only at h
  obtain ⟨u, -, h⟩ := exceptBind_ok h
  try dsimp only at h
  obtain ⟨pitems, -, h⟩ := exceptBind_ok h
  try dsimp only at h
  obtain ⟨ppts, -, h⟩ := exceptBind_ok h
  try dsimp only at h
  obtain ⟨bp1, -, h⟩ := exceptBind_ok h
  obtain ⟨b1, p1⟩ := bp1
  try dsimp only at h
  obtain ⟨bp2, -, h⟩ := exceptBind_ok h
  obtain ⟨b2, p2⟩ := bp2
  try dsimp only at h
  cases hla : b1 || b2 with
  | true =>
    rw [hla] at h
    simp only [if_pos rfl] at h
    injection h with h2'
    rw [← h2']
    left
    rfl
  | false =>
    rw [hla] at h
    simp only [Bool.false_eq_true] at h
    rcases hmb : multiApiBlock apiKey outs sc ec vehicle rd pitems (get_line_style i).dashArray
      with ⟨b3, p3⟩
    rw [hmb] at h
    try dsimp only at h
    cases hb3 : b3 with
    | true =>
      rw [hb3] at h
      injection h with h2'
      rw [← h2']
      left
      rfl
    | false =>
      rw [hb3] at h
      obtain ⟨sl, so, el, eo, hmf⟩ := multiFallback_ok sc ec ppts h1 h2 h3 h4
      rw [hmf] at h
      try dsimp only at h
      injection h with h2'
      rw [← h2']
      right
      simp

theorem multiLoop_mem (apiKey : String) (outss : List (List Outcome)) (sc ec : JsonV)
    (h1 : ∃ a, jGetItemE sc "lat" = .ok a) (h2 : ∃ a, jGetItemE sc "lon" = .ok a)
    (h3 : ∃ a, jGetItemE ec "lat" = .ok a) (h4 : ∃ a, jGetItemE ec "lon" = .ok a) :
    ∀ ris i l, multiLoop apiKey outss sc ec i ris = Except.ok l →
      ∀ out ∈ l, out.line_added = true ∨ out.polylines ≠ [] := by
  intro ris
  induction ris with
  | nil =>
    intro i l h out hmem
    unfold multiLoop at h
    injection h with h'
    rw [← h'] at hmem
    simp at hmem
  | cons ri rest ih =>
    intro i l h out hmem
    unfold multiLoop at h
    obtain ⟨o1, ho1, h⟩ := exceptBind_ok h
    try dsimp only at h
    obtain ⟨rest', hrest, h⟩ := exceptBind_ok h
    try dsimp only at h
    injection h with h'
    rw [← h'] at hmem
    rcases List.mem_cons.mp hmem with he | hmemr
    · subst he
      exact processRoute_draws apiKey (outss.getD i []) i sc ec ri out h1 h2 h3 h4 ho1
    · exact ih (i + 1) rest' hrest out hmemr

theorem multi_routes_draw (apiKey : String) (outss : List (List Outcome)) (ris : List JsonV)
    (sc ec : JsonV) (l : List RouteOut)
    (h : display_multiple_routes_on_map apiKey outss ris sc ec = Except.ok l) :
    ∀ out ∈ l, out.line_added = true ∨ out.polylines ≠ [] := by
  unfold display_multiple_routes_on_map at h
  obtain ⟨a1, ha1, h⟩ := exceptBind_ok h
  obtain ⟨v1, hv1, -⟩ := exceptBind_ok ha1
  try dsimp only at h
  obtain ⟨a2, ha2, h⟩ := exceptBind_ok h
  obtain ⟨v2, hv2, -⟩ := exceptBind_ok ha2
  try dsimp only at h
  obtain ⟨a3, ha3, h⟩ := exceptBind_ok h
  obtain ⟨v3, hv3, -⟩ := exceptBind_ok ha3
  try dsimp only at h
  obtain ⟨a4, ha4, h⟩ := exceptBind_ok h
  obtain ⟨v4, hv4, -⟩ := exceptBind_ok ha4
  try dsimp only at h
  exact multiLoop_mem apiKey outss sc ec ⟨v1, hv1⟩ ⟨v3, hv3⟩ ⟨v2, hv2⟩ ⟨v4, hv4⟩ ris 0 l h

theorem get_route_geometry_noKey (sp ep : JsonV) (wps : List JsonV) (vt : JsonV)
    (outs : List Outcome) :
    get_route_geometry "" sp ep wps vt outs = Except.ok ⟨none, 0, [], true, none⟩ := by
  simp [get_route_geometry]

theorem fetch_some_shape (apiKey : String) (sp ep : JsonV) (wps : List JsonV) (vt : JsonV)
    (outs : List Outcome) (fr : FetchResult) (d : JsonV)
    (h : get_route_geometry apiKey sp ep wps vt outs = Except.ok fr)
    (hr : fr.result = some d) :
    jContainsE d "features" = .ok true ∧ jTruthy d = true := by
  by_cases hk : apiKey = ""
  · subst hk
    rw [get_route_geometry_noKey] at h
    injection h with h'
    rw [← h'] at hr
    simp at hr
  · cases vt with
    | str s =>
      by_cases hv : validPoints sp ep = true
      · rw [get_route_geometry_run apiKey sp ep wps s outs hk hv] at h
        injection h with h'
        rw [← h'] at hr
        exact featuresShape_contains (routeLoop_some outs 3 0 2 d hr)
      · simp [get_route_geometry, hk, hv] at h
        rw [← h] at hr
        simp at hr
    | null => simp [get_route_geometry, hk] at h
    | bool b => simp [get_route_geometry, hk] at h
    | num q => simp [get_route_geometry, hk] at h
    | arr l => simp [get_route_geometry, hk] at h
    | obj kvs => simp [get_route_geometry, hk] at h

theorem jGetItemE_ok_getKey {x : JsonV} {k : String} {v : JsonV}
    (h : jGetItemE x k = .ok v) : jGetKey x k = some v := by
  cases x <;> simp [jGetItemE, jGetKey] at h ⊢ <;> try exact h.elim
  case obj kvs =>
    cases hl : lookupKV kvs k with
    | none => rw [hl] at h; simp at h
    | some w => rw [hl] at h; injection h with h'; rw [h']

theorem drmApiBlock_degrade (apiKey : String) (outs : List Outcome) (sc ec : JsonV)
    (mids : List JsonV) (d : JsonV) (fr : FetchResult)
    (hf : get_route_geometry apiKey sc ec mids (JsonV.str "car") outs = Except.ok fr)
    (hr : fr.result = some d)
    (hty : ∀ v, jGetKey d "type" = some v →
      JsonV.beq v (JsonV.str "LineString") = false ∧
      JsonV.beq v (JsonV.str "MultiLineString") = false) :
    drmApiBlock apiKey outs sc ec mids = (false, []) := by
  have ht := (fetch_some_shape apiKey sc ec mids _ outs fr d hf hr).2
  unfold drmApiBlock
  rw [hf]
  dsimp only
  rw [hr]
  dsimp only
  rw [ht]
  simp only [if_pos rfl]
  cases hti : jGetItemE d "type" with
  | error e => rfl
  | ok v =>
    obtain ⟨hL, hM⟩ := hty v (jGetItemE_ok_getKey hti)
    simp [hL, hM]

theorem multiApiBlock_degrade (apiKey : String) (outs : List Outcome) (sc ec rd : JsonV)
    (passengers : List JsonV) (dash : Option String) (d : JsonV) (fr : FetchResult)
    (hf : get_route_geometry apiKey sc ec passengers (JsonV.str "car") outs = Except.ok fr)
    (hr : fr.result = some d)
    (hty : ∀ v, jGetKey d "type" = some v →
      JsonV.beq v (JsonV.str "LineString") = false ∧
      JsonV.beq v (JsonV.str "MultiLineString") = false) :
    multiApiBlock apiKey outs sc ec
      (JsonV.obj [("model", JsonV.str "Carro"), ("license_plate", JsonV.str "ABC")])
      rd passengers dash = (false, []) := by
  have ht := (fetch_some_shape apiKey sc ec passengers _ outs fr d hf hr).2
  have hgv : get_vehicle_type (some "Carro") = "car" := rfl
  unfold multiApiBlock
  simp only [jContainsE_obj, lookupKV, jGetItemE_obj, bind, Except.bind, pure, Except.pure,
    eq_self_iff_true, if_true, Option.isSome_some, hgv]
  rw [hf]
  try dsimp only
  rw [hr]
  try dsimp only
  rw [ht]
  simp only [if_pos rfl]
  cases hti : jGetItemE d "type" with
  | error e => rfl
  | ok v =>
    obtain ⟨hL, hM⟩ := hty v (jGetItemE_ok_getKey hti)
    simp [hL, hM]

theorem display_route_map_degrades (apiKey : String) (outs : List Outcome) (fr : FetchResult) (d : JsonV)
    (hf : get_route_geometry apiKey ptA ptB [] (JsonV.str "car") outs = Except.ok fr)
    (hr : fr.result = some d)
    (hty : ∀ v, jGetKey d "type" = some v →
      JsonV.beq v (JsonV.str "LineString") = false ∧
      JsonV.beq v (JsonV.str "MultiLineString") = false) :
    display_route_map apiKey outs drmWaypoints =
      ⟨false, [⟨[(JsonV.num 1, JsonV.num 2), (JsonV.num 3, JsonV.num 4)], some "5, 5"⟩],
       true, false, false⟩ := by
  have hd := drmApiBlock_degrade apiKey outs ptA ptB [] d fr hf hr hty
  rw [ptA, ptB] at hd
  unfold display_route_map display_route_map_body
  simp [drmWaypoints, lookupKV, jIndexE, jIndexLastE, jGetAttrDE, jGetAttrE, drmMids,
    jLenE, hd, bind, Except.bind, pure, Except.pure]

theorem processRoute_degrades (apiKey : String) (outs : List Outcome) (fr : FetchResult) (d : JsonV)
    (hf : get_route_geometry apiKey ptA ptB [] (JsonV.str "car") outs = Except.ok fr)
    (hr : fr.result = some d)
    (hty : ∀ v, jGetKey d "type" = some v →
      JsonV.beq v (JsonV.str "LineString") = false ∧
      JsonV.beq v (JsonV.str "MultiLineString") = false) :
    processRoute apiKey outs 0 ptA ptB c1mRouteInfo =
      Except.ok ⟨false,
        [⟨[(JsonV.num 1, JsonV.num 2), (JsonV.num 3, JsonV.num 4)], some "5, 5"⟩],
        true, false, false⟩ := by
  have hm := multiApiBlock_degrade apiKey outs ptA ptB (JsonV.obj []) [] none d fr hf hr hty
  rw [ptA, ptB] at hm
  unfold processRoute
  simp [c1mRouteInfo, ptA, ptB, lookupKV, seatsCheckE, jTruthy, jIterateE,
    passengerPoints, multiFeatBlock, multiPathStep, multiPathBlock, jGetAttrDE, jGetAttrE,
    get_line_style, LINE_STYLES, hm, multiFallback, bind, Except.bind, pure, Except.pure]

theorem extract_ls_plain (ps : List (JsonV × JsonV)) :
    extract_route_coordinates (JsonV.obj [("features", JsonV.arr [JsonV.obj
      [("geometry", JsonV.obj [("type", JsonV.str "LineString"),
         ("coordinates", JsonV.arr (ps.map (fun p => JsonV.arr [p.1, p.2])))])]])]) =
      some (ps.map (fun p => (p.2, p.1))) := by
  simp [extract_route_coordinates, extractBodyE, extractFeatLoop, lookupKV,
    jIterateE, JsonV.beq, swapCoordsE_pairs, bind, Except.bind, pure, Except.pure]

theorem fetch_request_path (apiKey : String) (sp ep : JsonV) (wps : List JsonV)
    (vt : String) (outs : List Outcome) (fr : FetchResult) (hk : apiKey ≠ "")
    (hv : validPoints sp ep = true)
    (h : get_route_geometry apiKey sp ep wps (JsonV.str vt) outs = Except.ok fr) :
    fr.requestPath = some (sp :: (wps.filter wpValid ++ [ep])) := by
  rw [get_route_geometry_run apiKey sp ep wps vt outs hk hv] at h
  injection h with h'
  rw [← h']

/-! ## Claim theorems -/

/-- C1 counterexample: the claim "by the end of that route's processing the
line_added flag is true (a real or fallback polyline has been added)" fails
on the code.  In `display_multiple_routes_on_map` the straight-line fallback
(método 4) draws its polyline but never sets `line_added`, so a route can end
with `line_added = false` and the dashed fallback polyline present; and in
`display_route_on_map` an API response whose `MultiLineString` has an empty
coordinate list sets `line_added = true` with no polyline added at all. -/
theorem c1_counterexample :
    display_multiple_routes_on_map "" [[]] [c1mRouteInfo] ptA ptB =
      Except.ok [⟨false, [⟨[(JsonV.num 1, JsonV.num 2), (JsonV.num 3, JsonV.num 4)],
        some "5, 5"⟩], true, false, false⟩] ∧
    display_route_on_map "k" [Outcome.ok emptyMLSResp] (JsonV.obj []) ptA ptB [] =
      Except.ok ⟨true, [], false, false, false⟩ :=
  ⟨rfl, rfl⟩

/-- C1 (amended): for every route processed to completion by a render entry
point, either the `line_added` flag is true or the route's polyline has been
added: `display_route_on_map` always ends with `line_added = true` (its
fallback sets the flag), while in `display_multiple_routes_on_map` each
completed route ends with `line_added = true` or with at least one polyline
drawn (the fallback draws without setting the flag).  The flag alone does
not guarantee a polyline (empty `MultiLineString`), and in the multi-route
renderer the fallback does not set the flag. -/
theorem c1_line_added_or_drawn :
    (∀ apiKey outs rd sc ec wps out,
        display_route_on_map apiKey outs rd sc ec wps = Except.ok out →
        out.line_added = true) ∧
    (∀ apiKey outss ris sc ec l,
        display_multiple_routes_on_map apiKey outss ris sc ec = Except.ok l →
        ∀ out ∈ l, out.line_added = true ∨ out.polylines ≠ []) :=
  ⟨single_route_line_added, multi_routes_draw⟩

/-- C1 witness: a concrete single-route render that completes, with
`line_added = true` at the end. -/
theorem c1_line_added_or_drawn_witness :
    display_route_on_map "" [] (JsonV.obj []) ptA ptB [] =
      Except.ok ⟨true, [⟨[(JsonV.num 1, JsonV.num 2), (JsonV.num 3, JsonV.num 4)],
        some "5, 5"⟩], true, false, false⟩ ∧
    (⟨true, [⟨[(JsonV.num 1, JsonV.num 2), (JsonV.num 3, JsonV.num 4)],
        some "5, 5"⟩], true, false, false⟩ : RouteOut).line_added = true :=
  ⟨rfl, c1_line_added_or_drawn.1 "" [] (JsonV.obj []) ptA ptB [] _ rfl⟩

/-- C2 counterexample: the claim that a non-`None` result of
`get_route_geometry` always has a top-level `type` other than
`LineString`/`MultiLineString` (so the two API-fallback paths never draw
real geometry) fails on the code: the shape check never inspects the
top-level `type`, so a response carrying `type: LineString` plus top-level
`coordinates` is returned, matches the caller's check in
`display_route_map`, and is drawn as a real-geometry polyline with no
fallback. -/
theorem c2_counterexample :
    get_route_geometry "k" ptA ptB [] (JsonV.str "car") [Outcome.ok advResp] =
      Except.ok ⟨some advResp, 1, [], false, some [ptA, ptB]⟩ ∧
    jGetKey advResp "type" = some (JsonV.str "LineString") ∧
    display_route_map "k" [Outcome.ok advResp] drmWaypoints =
      ⟨true, [⟨[(JsonV.num 20, JsonV.num 10), (JsonV.num 40, JsonV.num 30)], none⟩],
       false, false, false⟩ :=
  ⟨rfl, rfl, rfl⟩

/-- C2 (amended): whenever `get_route_geometry` returns a non-`None` value,
that value is the full decoded response and contains a `features` key; if in
addition its top-level `type` is neither `LineString` nor `MultiLineString`
(as with the real FeatureCollection responses of the API), the callers' type
checks never match, and both API-fallback paths (method 2 of
`display_route_map`, método 3 of `display_multiple_routes_on_map`) degrade
to the dashed straight-line fallback. -/
theorem c2_api_fallback_degrades :
    (∀ apiKey sp ep wps vt outs fr d,
        get_route_geometry apiKey sp ep wps vt outs = Except.ok fr →
        fr.result = some d → jContainsE d "features" = Except.ok true) ∧
    (∀ apiKey outs fr d,
        get_route_geometry apiKey ptA ptB [] (JsonV.str "car") outs = Except.ok fr →
        fr.result = some d →
        (∀ v, jGetKey d "type" = some v →
          JsonV.beq v (JsonV.str "LineString") = false ∧
          JsonV.beq v (JsonV.str "MultiLineString") = false) →
        display_route_map apiKey outs drmWaypoints =
          ⟨false, [⟨[(JsonV.num 1, JsonV.num 2), (JsonV.num 3, JsonV.num 4)],
            some "5, 5"⟩], true, false, false⟩) ∧
    (∀ apiKey outs fr d,
        get_route_geometry apiKey ptA ptB [] (JsonV.str "car") outs = Except.ok fr →
        fr.result = some d →
        (∀ v, jGetKey d "type" = some v →
          JsonV.beq v (JsonV.str "LineString") = false ∧
          JsonV.beq v (JsonV.str "MultiLineString") = false) →
        processRoute apiKey outs 0 ptA ptB c1mRouteInfo =
          Except.ok ⟨false, [⟨[(JsonV.num 1, JsonV.num 2), (JsonV.num 3, JsonV.num 4)],
            some "5, 5"⟩], true, false, false⟩) :=
  ⟨fun apiKey sp ep wps vt outs fr d h hr =>
      (fetch_some_shape apiKey sp ep wps vt outs fr d h hr).1,
   display_route_map_degrades, processRoute_degrades⟩

/-- C2 witness: a FeatureCollection-shaped response is returned whole,
contains `features`, and both the single-route caller degrades to the
straight-line fallback. -/
theorem c2_api_fallback_degrades_witness :
    get_route_geometry "k" ptA ptB [] (JsonV.str "car") [Outcome.ok fcResp] =
      Except.ok ⟨some fcResp, 1, [], false, some [ptA, ptB]⟩ ∧
    jContainsE fcResp "features" = Except.ok true ∧
    display_route_map "k" [Outcome.ok fcResp] drmWaypoints =
      ⟨false, [⟨[(JsonV.num 1, JsonV.num 2), (JsonV.num 3, JsonV.num 4)],
        some "5, 5"⟩], true, false, false⟩ :=
  ⟨rfl,
   c2_api_fallback_degrades.1 "k" ptA ptB [] (JsonV.str "car") [Outcome.ok fcResp]
     ⟨some fcResp, 1, [], false, some [ptA, ptB]⟩ fcResp rfl rfl,
   c2_api_fallback_degrades.2.1 "k" [Outcome.ok fcResp]
     ⟨some fcResp, 1, [], false, some [ptA, ptB]⟩ fcResp rfl rfl
     (fun v hv => by
       rw [show jGetKey fcResp "type" = some (JsonV.str "FeatureCollection") from rfl] at hv
       cases hv
       exact ⟨rfl, rfl⟩)⟩

/-- C3: `extract_route_coordinates` tries shapes in the fixed order GeoJSON
features (a `LineString` returning its coordinate list with each pair
swapped to (lat, lon) — in particular [[2,1],[4,3]] yields [(1,2),(3,4)] —
and a `MultiLineString` returning the concatenation of its segments,
swapped), then a non-empty `path` of explicit lat/lon points used as-is,
then a truthy encoded `polyline` string run through the decoder; the first
matching shape wins (features over path, path over polyline), and a dict
with none of these shapes yields `none`, distinct from an empty-but-valid
coordinate list. -/
theorem c3_extraction_order :
    (∀ ps : List (JsonV × JsonV),
       extract_route_coordinates (JsonV.obj [("features", JsonV.arr [JsonV.obj
         [("geometry", JsonV.obj [("type", JsonV.str "LineString"),
            ("coordinates", JsonV.arr (ps.map (fun p => JsonV.arr [p.1, p.2])))])]])]) =
         some (ps.map (fun p => (p.2, p.1)))) ∧
    extract_route_coordinates (JsonV.obj [("features", JsonV.arr [JsonV.obj
      [("geometry", JsonV.obj [("type", JsonV.str "LineString"),
         ("coordinates", JsonV.arr [JsonV.arr [JsonV.num 2, JsonV.num 1],
           JsonV.arr [JsonV.num 4, JsonV.num 3]])])]])]) =
      some [(JsonV.num 1, JsonV.num 2), (JsonV.num 3, JsonV.num 4)] ∧
    (∀ segs : List (List (JsonV × JsonV)),
       extract_route_coordinates (JsonV.obj [("features", JsonV.arr [JsonV.obj
         [("geometry", JsonV.obj [("type", JsonV.str "MultiLineString"),
            ("coordinates", JsonV.arr (segs.map (fun seg =>
              JsonV.arr (seg.map (fun p => JsonV.arr [p.1, p.2])))))])]])]) =
         some ((segs.map (fun seg => seg.map (fun p => (p.2, p.1)))).flatten)) ∧
    (∀ ps : List (JsonV × JsonV), ∀ pv : JsonV,
       extract_route_coordinates (JsonV.obj [("features", JsonV.arr [JsonV.obj
         [("geometry", JsonV.obj [("type", JsonV.str "LineString"),
            ("coordinates", JsonV.arr (ps.map (fun p => JsonV.arr [p.1, p.2])))])]]),
         ("path", pv)]) =
         some (ps.map (fun p => (p.2, p.1)))) ∧
    (∀ ps : List (JsonV × JsonV), ∀ s : String, ps ≠ [] →
       extract_route_coordinates (JsonV.obj
         [("path", JsonV.arr (ps.map (fun p => JsonV.obj [("lat", p.1), ("lon", p.2)]))),
          ("polyline", JsonV.str s)]) = some ps) ∧
    (∀ s : String, s ≠ "" →
       extract_route_coordinates (JsonV.obj [("polyline", JsonV.str s)]) =
         (polylineDecode s).map (fun l => l.map (fun q => (JsonV.num q.1, JsonV.num q.2)))) ∧
    (∀ kvs, lookupKV kvs "features" = none → lookupKV kvs "path" = none →
       lookupKV kvs "polyline" = none →
       extract_route_coordinates (JsonV.obj kvs) = none) :=
  ⟨extract_ls_plain, rfl, extract_mls_concat, extract_ls_beats_path,
   extract_path_beats_polyline, extract_polyline_decode, extract_no_shape_none⟩

/-- C3 witness: a one-point path with an (ignored) polyline string. -/
theorem c3_extraction_order_witness :
    ([((JsonV.num 7 : JsonV), (JsonV.num 8 : JsonV))] ≠
      ([] : List (JsonV × JsonV))) ∧
    extract_route_coordinates (JsonV.obj
      [("path", JsonV.arr [JsonV.obj [("lat", JsonV.num 7), ("lon", JsonV.num 8)]]),
       ("polyline", JsonV.str "abc")]) = some [(JsonV.num 7, JsonV.num 8)] := by
  constructor
  · simp
  · exact c3_extraction_order.2.2.2.2.1 [(JsonV.num 7, JsonV.num 8)] "abc" (by simp)

/-- C4: `get_route_geometry` makes at most 3 attempts; three consecutive
timeouts give exactly 3 attempts with sleeps of 2 s then 4 s and a `None`
result; an HTTP error or any other exception on the first attempt ends the
call after exactly one attempt with no sleep and a `None` result; and in
general the sleeps are the prefix [2, 4] determined by the attempt count,
with every retried (non-final) attempt having been a timeout — only
timeouts are retried. -/
theorem c4_retry_policy :
    (∀ apiKey sp ep wps vt outs fr,
        get_route_geometry apiKey sp ep wps vt outs = Except.ok fr →
        fr.attempts ≤ 3) ∧
    (∀ apiKey sp ep wps vt, apiKey ≠ "" → validPoints sp ep = true →
        get_route_geometry apiKey sp ep wps (JsonV.str vt)
            [Outcome.timeout, Outcome.timeout, Outcome.timeout] =
          Except.ok ⟨none, 3, [2, 4], false,
            some (sp :: (wps.filter wpValid ++ [ep]))⟩) ∧
    (∀ apiKey sp ep wps vt rest, apiKey ≠ "" → validPoints sp ep = true →
        get_route_geometry apiKey sp ep wps (JsonV.str vt) (Outcome.httpErr :: rest) =
          Except.ok ⟨none, 1, [], false,
            some (sp :: (wps.filter wpValid ++ [ep]))⟩ ∧
        get_route_geometry apiKey sp ep wps (JsonV.str vt) (Outcome.exc :: rest) =
          Except.ok ⟨none, 1, [], false,
            some (sp :: (wps.filter wpValid ++ [ep]))⟩) ∧
    (∀ apiKey sp ep wps vt outs fr, apiKey ≠ "" → validPoints sp ep = true →
        get_route_geometry apiKey sp ep wps (JsonV.str vt) outs = Except.ok fr →
        fr.sleeps = [2, 4].take (fr.attempts - 1) ∧
        ∀ j, j + 1 < fr.attempts → outs.getD j Outcome.exc = Outcome.timeout) :=
  ⟨fetch_attempts_le,
   fun apiKey sp ep wps vt hk hv => fetch_three_timeouts apiKey sp ep wps vt hk hv,
   fun apiKey sp ep wps vt rest hk hv => fetch_error_aborts apiKey sp ep wps vt rest hk hv,
   fun apiKey sp ep wps vt outs fr hk hv h =>
     fetch_only_timeout_retried apiKey sp ep wps vt outs fr hk hv h⟩

/-- C4 witness: three timeouts against a concrete valid request. -/
theorem c4_retry_policy_witness :
    ("k" : String) ≠ "" ∧ validPoints ptA ptB = true ∧
    get_route_geometry "k" ptA ptB [] (JsonV.str "car")
        [Outcome.timeout, Outcome.timeout, Outcome.timeout] =
      Except.ok ⟨none, 3, [2, 4], false, some [ptA, ptB]⟩ :=
  ⟨by decide, by decide,
   c4_retry_policy.2.1 "k" ptA ptB [] "car" (by decide) (by decide)⟩

/-- C5: with an absent or empty GEOAPIFY_API_KEY, every call returns `None`
immediately: no attempt is made (no network request), the no-key warning is
shown, and nothing else happens. -/
theorem c5_no_key_no_request (sp ep : JsonV) (wps : List JsonV) (vt : JsonV)
    (outs : List Outcome) :
    get_route_geometry "" sp ep wps vt outs =
      Except.ok ⟨none, 0, [], true, none⟩ :=
  get_route_geometry_noKey sp ep wps vt outs

/-- C6: for a valid request whose attempt yields a decoded body `data`, the
call returns the full decoded response (`some data`) if and only if the body
has the required shape: a non-empty `features` list whose first feature has
a `geometry` key (membership in the Python `in` sense); any other shape
yields `None`. -/
theorem c6_success_iff_shape (apiKey : String) (sp ep : JsonV) (wps : List JsonV)
    (vt : String) (data : JsonV) (fr : FetchResult) (hk : apiKey ≠ "")
    (hv : validPoints sp ep = true)
    (h : get_route_geometry apiKey sp ep wps (JsonV.str vt) [Outcome.ok data] =
      Except.ok fr) :
    fr.result = some data ↔ featuresShapeSpec data = true :=
  fetch_shape_iff apiKey sp ep wps vt data fr hk hv h

/-- C6 witness: a response with one geometry-bearing feature. -/
theorem c6_success_iff_shape_witness :
    ("k" : String) ≠ "" ∧ validPoints ptA ptB = true ∧
    get_route_geometry "k" ptA ptB [] (JsonV.str "car") [Outcome.ok emptyMLSResp] =
      Except.ok ⟨some emptyMLSResp, 1, [], false, some [ptA, ptB]⟩ ∧
    ((⟨some emptyMLSResp, 1, [], false, some [ptA, ptB]⟩ : FetchResult).result =
        some emptyMLSResp ↔ featuresShapeSpec emptyMLSResp = true) :=
  ⟨by decide, by decide, rfl,
   c6_success_iff_shape "k" ptA ptB [] "car" emptyMLSResp
     ⟨some emptyMLSResp, 1, [], false, some [ptA, ptB]⟩ (by decide) (by decide) rfl⟩

/-- C7 counterexample: the claim "for every index and every route_id that is
given, the index is ignored" fails on the code: Python tests the truthiness
of `route_id`, so the empty string (a given id) falls back to index-based
selection, and different indices give different colors for the same id. -/
theorem c7_counterexample :
    get_color_for_route 1 (some "") = "#DC3912" ∧
    get_color_for_route 2 (some "") = "#FF9900" ∧
    get_color_for_route 1 (some "") ≠ get_color_for_route 2 (some "") := by
  refine ⟨rfl, rfl, ?_⟩
  decide

/-- C7 (amended): for every non-empty (truthy) route_id the index is ignored
and the color is the palette entry at the stable MD5 hash of the id modulo
the 20-entry palette, so the same id always gets the same color; with no id
the color is the palette entry at index mod 20, cycling with period 20; an
empty (falsy) route_id behaves like no id. -/
theorem c7_color_selection :
    (∀ i j rid, rid ≠ "" →
       get_color_for_route i (some rid) =
         DISTINCT_COLORS.getD (md5HexInt rid % DISTINCT_COLORS.length) "" ∧
       get_color_for_route i (some rid) = get_color_for_route j (some rid)) ∧
    (∀ i, get_color_for_route i none = DISTINCT_COLORS.getD (i % 20) "" ∧
       get_color_for_route (i + 20) none = get_color_for_route i none) ∧
    (∀ i, get_color_for_route i (some "") = get_color_for_route i none) :=
  color_assignment_behavior

/-- C7 witness: two indices, one non-empty id. -/
theorem c7_color_selection_witness :
    ("x" : String) ≠ "" ∧
    (get_color_for_route 0 (some "x") =
       DISTINCT_COLORS.getD (md5HexInt "x" % DISTINCT_COLORS.length) "" ∧
     get_color_for_route 0 (some "x") = get_color_for_route 5 (some "x")) :=
  ⟨by decide, c7_color_selection.1 0 5 "x" (by decide)⟩

/-- C8: `get_vehicle_type` always returns one of car/bus/van/truck/motorcycle;
any model string whose lowering contains one of the bus keywords ("ônibus",
"onibus", "bus" — hence any case variant of them) returns "bus" (bus is the
first category checked); a string whose lowering contains no keyword of any
category returns "car", as do `None` and the empty string. -/
theorem c8_vehicle_classifier :
    (∀ m, get_vehicle_type m = "car" ∨ get_vehicle_type m = "bus" ∨
       get_vehicle_type m = "van" ∨ get_vehicle_type m = "truck" ∨
       get_vehicle_type m = "motorcycle") ∧
    (∀ s k, k ∈ busKeywords → strContains (pyLower s) k = true →
       get_vehicle_type (some s) = "bus") ∧
    (∀ s, (∀ k, k ∈ busKeywords ++ vanKeywords ++ truckKeywords ++ motoKeywords →
         strContains (pyLower s) k = false) →
       get_vehicle_type (some s) = "car") ∧
    get_vehicle_type none = "car" ∧ get_vehicle_type (some "") = "car" :=
  vehicle_type_behavior

/-- C8 witness: an upper-case accented bus model. -/
theorem c8_vehicle_classifier_witness :
    ("ônibus" ∈ busKeywords) ∧
    strContains (pyLower "Meu ÔNIBUS 12") "ônibus" = true ∧
    get_vehicle_type (some "Meu ÔNIBUS 12") = "bus" :=
  ⟨by decide, by decide,
   c8_vehicle_classifier.2.1 "Meu ÔNIBUS 12" "ônibus" (by decide) (by decide)⟩

/-- C9: with the routing API unreachable (every attempt times out), a
route whose data has no `features` and exactly one waypoint renders exactly
one polyline: the dashed ("5, 5") straight line through origin, waypoint and
destination in that order, and the user-visible fallback warning is shown. -/
theorem c9_unreachable_api_fallback (slat slon elat elon : ℚ) (wla wlo : JsonV)
    (apiKey : String) (kvs : List (String × JsonV)) (hk : apiKey ≠ "")
    (hf : lookupKV kvs "features" = none) :
    display_route_on_map apiKey [Outcome.timeout, Outcome.timeout, Outcome.timeout]
        (JsonV.obj kvs)
        (JsonV.obj [("lat", JsonV.num slat), ("lon", JsonV.num slon)])
        (JsonV.obj [("lat", JsonV.num elat), ("lon", JsonV.num elon)])
        [JsonV.obj [("lat", wla), ("lon", wlo)]] =
      Except.ok ⟨true,
        [⟨[(JsonV.num slat, JsonV.num slon), (wla, wlo), (JsonV.num elat, JsonV.num elon)],
          some "5, 5"⟩], true, false, false⟩ :=
  single_route_fallback_render slat slon elat elon wla wlo apiKey kvs hk hf

/-- C9 witness: a concrete unreachable-API render with one waypoint. -/
theorem c9_unreachable_api_fallback_witness :
    ("k" : String) ≠ "" ∧ lookupKV ([] : List (String × JsonV)) "features" = none ∧
    display_route_on_map "k" [Outcome.timeout, Outcome.timeout, Outcome.timeout]
        (JsonV.obj []) ptA ptB [JsonV.obj [("lat", JsonV.num 5), ("lon", JsonV.num 6)]] =
      Except.ok ⟨true,
        [⟨[(JsonV.num 1, JsonV.num 2), (JsonV.num 5, JsonV.num 6), (JsonV.num 3, JsonV.num 4)],
          some "5, 5"⟩], true, false, false⟩ :=
  ⟨by decide, rfl,
   c9_unreachable_api_fallback 1 2 3 4 (JsonV.num 5) (JsonV.num 6) "k" [] (by decide) rfl⟩

/-- C10: with a valid request, the ordered request path is exactly origin,
the waypoints passing the filter, destination; a waypoint passes the filter
iff it is a dict with `lat` and `lon` both present and truthy; in
particular any waypoint whose `lat` is present but falsy — 0, null or empty
— is silently excluded. -/
theorem c10_waypoint_filtering :
    (∀ apiKey sp ep wps vt outs fr, apiKey ≠ "" → validPoints sp ep = true →
        get_route_geometry apiKey sp ep wps (JsonV.str vt) outs = Except.ok fr →
        fr.requestPath = some (sp :: (wps.filter wpValid ++ [ep]))) ∧
    (∀ wp, wpValid wp = true ↔
        wp.isObj = true ∧
        (∃ v, jGetKey wp "lat" = some v ∧ jTruthy v = true) ∧
        (∃ v, jGetKey wp "lon" = some v ∧ jTruthy v = true)) ∧
    (∀ wp v, jGetKey wp "lat" = some v → jTruthy v = false → wpValid wp = false) ∧
    (∀ wp, jGetKey wp "lat" = some (JsonV.num 0) → wpValid wp = false) :=
  ⟨fun apiKey sp ep wps vt outs fr hk hv h =>
      fetch_request_path apiKey sp ep wps vt outs fr hk hv h,
   wpValid_iff,
   wpValid_zero,
   fun wp h => wpValid_zero wp (JsonV.num 0) h (by decide)⟩

/-- C10 witness: a zero-latitude waypoint is excluded from the request
path. -/
theorem c10_waypoint_filtering_witness :
    ("k" : String) ≠ "" ∧ validPoints ptA ptB = true ∧
    get_route_geometry "k" ptA ptB [wpZero] (JsonV.str "car") [Outcome.httpErr] =
      Except.ok ⟨none, 1, [], false, some [ptA, ptB]⟩ ∧
    (⟨none, 1, [], false, some [ptA, ptB]⟩ : FetchResult).requestPath =
      some (ptA :: ([wpZero].filter wpValid ++ [ptB])) :=
  ⟨by decide, by decide, rfl,
   c10_waypoint_filtering.1 "k" ptA ptB [wpZero] "car" [Outcome.httpErr]
     ⟨none, 1, [], false, some [ptA, ptB]⟩ (by decide) (by decide) rfl⟩
